import Mathlib

/- Formal model of the MXLIMS crystallography data model
   (src/mxlims/pydantic/core.py and src/mxlims/pydantic/crystallography.py).

   The pydantic record classes are embedded shallowly:
   - JSON documents are the inductive `Json` (numbers as exact rationals,
     standing in for Python floats/ints of the interchange layer);
   - each pydantic model becomes a Lean structure (or a member of a mutual
     inductive family when the Python classes are mutually recursive);
   - pydantic validation (`Model(**data)` / `model_validate`) becomes a
     function `Json → Except (List VErr) T` which, like pydantic, collects
     every field violation instead of stopping at the first;
   - pydantic serialization (`model_dump`, JSON mode) becomes a function
     `T → Json` emitting every declared field (None as null);
   - datetime values are kept as their opaque serialized timestamp strings,
     and UUID values as their string form; numeric-string coercion of the
     lax pydantic mode is outside the modelled input domain.
-/

namespace Mxlims

/-- JSON values; numbers are exact rationals. Objects are association lists
(Python dicts have no duplicate keys). -/
inductive Json where
  | null : Json
  | bool : Bool → Json
  | num : ℚ → Json
  | str : String → Json
  | arr : List Json → Json
  | obj : List (String × Json) → Json

/-- First-match association lookup on the field list of a JSON object. -/
def lookupKey : List (String × Json) → String → Option Json
  | [], _ => none
  | (k', v) :: rest, k => if k' = k then some v else lookupKey rest k

theorem sizeOf_lookupKey {fs : List (String × Json)} {k : String} {v : Json}
    (h : lookupKey fs k = some v) : sizeOf v < sizeOf fs := by
  induction fs with
  | nil => simp [lookupKey] at h
  | cons p rest ih =>
    rw [lookupKey] at h
    split at h
    · cases h
      cases p
      simp
      omega
    · have := ih h
      cases p
      simp
      omega

/-- A single validation error: the offending field and an error kind,
mirroring one entry of a pydantic ValidationError. -/
structure VErr where
  loc : String
  msg : String
deriving DecidableEq

/-- Applicative combination of two validation results, accumulating the
errors of both sides (pydantic reports every violation, not just the
first). -/
def vApply : Except (List VErr) (α → β) → Except (List VErr) α →
    Except (List VErr) β
  | .ok f, .ok a => .ok (f a)
  | .ok _, .error e => .error e
  | .error e, .ok _ => .error e
  | .error e1, .error e2 => .error (e1 ++ e2)

/-- Errors carried by a validation result (empty on success). -/
def errsOf : Except (List VErr) α → List VErr
  | .ok _ => []
  | .error e => e

theorem errsOf_vApply_right (a : Except (List VErr) (α → β))
    (b : Except (List VErr) α) : ∀ e ∈ errsOf b, e ∈ errsOf (vApply a b) := by
  intro e he
  cases a <;> cases b <;> simp [vApply, errsOf] at * <;> simp [he]

theorem errsOf_vApply_left (a : Except (List VErr) (α → β))
    (b : Except (List VErr) α) : ∀ e ∈ errsOf a, e ∈ errsOf (vApply a b) := by
  intro e he
  cases a <;> cases b <;> simp [vApply, errsOf] at * <;> simp [he]

theorem isError_of_errsOf_ne_nil (a : Except (List VErr) α)
    (h : errsOf a ≠ []) : ∃ e, a = .error e ∧ errsOf a = e := by
  cases a with
  | ok _ => simp [errsOf] at h
  | error e => exact ⟨e, rfl, rfl⟩

/-- Prefix every error location with the name of the enclosing field
(pydantic nests error locations for sub-models). -/
def prefixErrs (pfx : String) : Except (List VErr) α → Except (List VErr) α
  | .ok a => .ok a
  | .error es => .error (es.map fun e => ⟨pfx ++ "." ++ e.loc, e.msg⟩)

/-- Missing-required-field error, as pydantic reports it. -/
def missingErr (name : String) : VErr := ⟨name, "Field required"⟩

/-- Wrong-type error for a field. -/
def typeErr (name : String) : VErr := ⟨name, "wrong type"⟩

/-- Out-of-range error for a numeric field. -/
def rangeErr (name : String) : VErr := ⟨name, "out of range"⟩

/-- Invalid-enum-member error for a field. -/
def enumErr (name : String) : VErr := ⟨name, "invalid enum member"⟩

/-- Required string field (no default in the source); the argument is the
looked-up value of the field. -/
def reqStr (o : Option Json) (name : String) :
    Except (List VErr) String :=
  match o with
  | some (.str s) => .ok s
  | some _ => .error [typeErr name]
  | none => .error [missingErr name]

/-- Optional string field with default None. -/
def optStr (o : Option Json) (name : String) :
    Except (List VErr) (Option String) :=
  match o with
  | some (.str s) => .ok (some s)
  | some .null => .ok none
  | some _ => .error [typeErr name]
  | none => .ok none

/-- Inclusive bound check for pydantic `ge`/`le` constraints. -/
def boundsOk (lo hi : Option ℚ) (q : ℚ) : Bool :=
  (match lo with | some l => decide (l ≤ q) | none => true) &&
  (match hi with | some h => decide (q ≤ h) | none => true)

/-- Optional float field with default None and optional inclusive lower and
upper bounds (pydantic `ge`/`le`). -/
def optNum (o : Option Json) (name : String)
    (lo hi : Option ℚ) : Except (List VErr) (Option ℚ) :=
  match o with
  | some (.num q) =>
      if boundsOk lo hi q then .ok (some q) else .error [rangeErr name]
  | some .null => .ok none
  | some _ => .error [typeErr name]
  | none => .ok none

/-- Required float field with optional inclusive bounds. -/
def reqNum (o : Option Json) (name : String)
    (lo hi : Option ℚ) : Except (List VErr) ℚ :=
  match o with
  | some (.num q) =>
      if boundsOk lo hi q then .ok q else .error [rangeErr name]
  | some .null => .error [typeErr name]
  | some _ => .error [typeErr name]
  | none => .error [missingErr name]

/-- Required int field: a JSON number with denominator 1. -/
def reqInt (o : Option Json) (name : String) :
    Except (List VErr) ℤ :=
  match o with
  | some (.num q) => if q.den = 1 then .ok q.num else .error [typeErr name]
  | some _ => .error [typeErr name]
  | none => .error [missingErr name]

/-- Optional int field with default None and optional exclusive lower bound
(pydantic `gt`). -/
def optInt (o : Option Json) (name : String) (gt0 : Bool) :
    Except (List VErr) (Option ℤ) :=
  match o with
  | some (.num q) =>
      if q.den = 1 then
        if gt0 ∧ q.num ≤ 0 then .error [rangeErr name] else .ok (some q.num)
      else .error [typeErr name]
  | some .null => .ok none
  | some _ => .error [typeErr name]
  | none => .ok none

/-- Optional bool field with a literal default. -/
def optBool (o : Option Json) (name : String) (dflt : Bool) :
    Except (List VErr) Bool :=
  match o with
  | some (.bool b) => .ok b
  | some _ => .error [typeErr name]
  | none => .ok dflt

/-- Pair-of-floats field, optional with default None
(`Optional[Tuple[float, float]]`). -/
def optPairNum (o : Option Json) (name : String) :
    Except (List VErr) (Option (ℚ × ℚ)) :=
  match o with
  | some (.arr [.num a, .num b]) => .ok (some (a, b))
  | some .null => .ok none
  | some _ => .error [typeErr name]
  | none => .ok none

/-- Required pair-of-ints field (`Tuple[int, int]`). -/
def reqPairInt (o : Option Json) (name : String) :
    Except (List VErr) (ℤ × ℤ) :=
  match o with
  | some (.arr [.num a, .num b]) =>
      if a.den = 1 ∧ b.den = 1 then .ok (a.num, b.num)
      else .error [typeErr name]
  | some _ => .error [typeErr name]
  | none => .error [missingErr name]

/-- Dict[str, float] value check, used by dictNum. -/
def dictNumGo : List (String × Json) → Option (List (String × ℚ))
  | [] => some []
  | (k, .num q) :: rest => (dictNumGo rest).map fun l => (k, q) :: l
  | _ :: _ => none

/-- Dict[str, float] field with default {}. -/
def dictNum (o : Option Json) (name : String) :
    Except (List VErr) (List (String × ℚ)) :=
  match o with
  | some (.obj kvs) =>
      match dictNumGo kvs with
      | some l => .ok l
      | none => .error [typeErr name]
  | some _ => .error [typeErr name]
  | none => .ok []

/-- Dict[str, str] value check, used by dictStr. -/
def dictStrGo : List (String × Json) → Option (List (String × String))
  | [] => some []
  | (k, .str s) :: rest => (dictStrGo rest).map fun l => (k, s) :: l
  | _ :: _ => none

/-- Dict[str, str] field with default {}. -/
def dictStr (o : Option Json) (name : String) :
    Except (List VErr) (List (String × String)) :=
  match o with
  | some (.obj kvs) =>
      match dictStrGo kvs with
      | some l => .ok l
      | none => .error [typeErr name]
  | some _ => .error [typeErr name]
  | none => .ok []

/-- Dict[str, Any] field with default {} (the `extensions` escape hatch):
values are arbitrary JSON and validate to themselves. -/
def dictAny (o : Option Json) (name : String) :
    Except (List VErr) (List (String × Json)) :=
  match o with
  | some (.obj kvs) => .ok kvs
  | some _ => .error [typeErr name]
  | none => .ok []

/-- Dict[str, BaseModel] value check: pydantic validates each value against
the bare `BaseModel` annotation, so any JSON object becomes the empty base
model and all sub-model content is dropped. -/
def dictBaseModelGo : List (String × Json) → Option (List (String × Json))
  | [] => some []
  | (k, .obj _) :: rest => (dictBaseModelGo rest).map fun l => (k, Json.obj []) :: l
  | _ :: _ => none

/-- Dict[str, BaseModel] field with default {} (`namespace_extensions`). -/
def dictBaseModel (o : Option Json) (name : String) :
    Except (List VErr) (List (String × Json)) :=
  match o with
  | some (.obj kvs) =>
      match dictBaseModelGo kvs with
      | some l => .ok l
      | none => .error [typeErr name]
  | some _ => .error [typeErr name]
  | none => .ok []

/-- Optional enum field with default None, given the value-to-member
function of the enum. -/
def optEnum (o : Option Json) (name : String)
    (fromValue : String → Option α) : Except (List VErr) (Option α) :=
  match o with
  | some (.str s) =>
      match fromValue s with
      | some a => .ok (some a)
      | none => .error [enumErr name]
  | some .null => .ok none
  | some _ => .error [enumErr name]
  | none => .ok none

/-- Required discriminator field: `mxlims_type: Literal["<Name>"]` has no
default in the source, so the literal tag must be present and equal. -/
def reqLiteral (o : Option Json) (name value : String) :
    Except (List VErr) Unit :=
  match o with
  | some (.str s) => if s = value then .ok () else .error [typeErr name]
  | some _ => .error [typeErr name]
  | none => .error [missingErr name]

/-- Placeholder for the `uuid.uuid4().hex` default factory of
`MxlimsObject.uuid`; the concrete generated value is irrelevant to every
property proved here. -/
def freshUuid : String := "00000000000000000000000000000000"

/-- String field with the uuid default factory: absent means a generated
identifier. -/
def uuidStr (o : Option Json) (name : String) :
    Except (List VErr) String :=
  match o with
  | some (.str s) => .ok s
  | some _ => .error [typeErr name]
  | none => .ok freshUuid

/-- Optional datetime field, kept as its serialized timestamp string. -/
def optDatetime (o : Option Json) (name : String) :
    Except (List VErr) (Option String) :=
  optStr o name

/-- `class JobStatus(str, enum.Enum)` of core.py. The value of the `Failed`
member is the literal string of the source, which starts with a tab character
("\tFailed" in core.py line 40). -/
inductive JobStatus where
  | Template : JobStatus
  | Ready : JobStatus
  | Running : JobStatus
  | Completed : JobStatus
  | Failed : JobStatus
  | Aborted : JobStatus
deriving DecidableEq

/-- Enum value of each JobStatus member, exactly as written in core.py. -/
def JobStatus.value : JobStatus → String
  | .Template => "Template"
  | .Ready => "Ready"
  | .Running => "Running"
  | .Completed => "Completed"
  | .Failed => "\tFailed"
  | .Aborted => "Aborted"

/-- Enum lookup by value, as pydantic validates a string into JobStatus. -/
def JobStatus.fromValue (s : String) : Option JobStatus :=
  if s = "Template" then some .Template
  else if s = "Ready" then some .Ready
  else if s = "Running" then some .Running
  else if s = "Completed" then some .Completed
  else if s = "\tFailed" then some .Failed
  else if s = "Aborted" then some .Aborted
  else none

theorem JobStatus.fromValue_value (j : JobStatus) :
    JobStatus.fromValue (JobStatus.value j) = some j := by
  cases j <;> decide

theorem sizeOf_lookupKey_opt (fs : List (String × Json)) (k : String) :
    sizeOf (lookupKey fs k) < 1 + sizeOf fs := by
  cases h : lookupKey fs k with
  | none =>
    have : 1 ≤ sizeOf fs := by cases fs <;> simp <;> omega
    simp
    omega
  | some v =>
    have := sizeOf_lookupKey h
    simp
    omega

/- The four mutually recursive entity base classes of core.py. pydantic
flattens inheritance, so each carries the MxlimsObject fields
(uuid, extensions, namespace_extensions) followed by its own fields in
declaration order. `namespace_extensions` values hold the payload of the
attached sub-model; datetimes are opaque timestamp strings; the UUID-typed
`derived_from_id` is kept in string form. -/
mutual
inductive Job where
  | mk (uuid : String) (extensions : List (String × Json))
      (namespace_extensions : List (String × Json))
      (sample : Option PreparedSample)
      (logistical_sample : Option LogisticalSample)
      (templates : List Dataset) (input_data : List Dataset)
      (reference_data : List Dataset) (results : List Dataset)
      (start_time : Option String) (end_time : Option String)
      (job_status : Option JobStatus) : Job
inductive Dataset where
  | mk (uuid : String) (extensions : List (String × Json))
      (namespace_extensions : List (String × Json))
      (source : Option Job) (role : Option String)
      (logistical_sample : Option LogisticalSample)
      (derived_from_id : Option String) : Dataset
inductive LogisticalSample where
  | mk (uuid : String) (extensions : List (String × Json))
      (namespace_extensions : List (String × Json))
      (sample : Option PreparedSample)
      (container : Option LogisticalSample)
      (contents : List LogisticalSample)
      (jobs : List Job) (datasets : List Dataset) : LogisticalSample
inductive PreparedSample where
  | mk (uuid : String) (extensions : List (String × Json))
      (namespace_extensions : List (String × Json))
      (logistical_samples : List LogisticalSample)
      (jobs : List Job) : PreparedSample
end

/-- Serialization of an optional string field (None becomes null). -/
def dumpOptStr : Option String → Json
  | none => .null
  | some s => .str s

/-- Serialization of an optional JobStatus field by enum value. -/
def dumpOptJobStatus : Option JobStatus → Json
  | none => .null
  | some s => .str (JobStatus.value s)

/-- Serialization of `namespace_extensions`: pydantic serializes each value
through the declared `BaseModel` annotation, which has no fields, so every
sub-model serializes to the empty object and its content is dropped. -/
def dumpNs (ns : List (String × Json)) : Json :=
  .obj (ns.map fun kv => (kv.1, Json.obj []))

mutual
def Job.dump : Job → Json
  | .mk u ext ns sample ls tm ind refd res st et js =>
    .obj [("uuid", .str u), ("extensions", .obj ext),
      ("namespace_extensions", dumpNs ns),
      ("sample", dumpOptPreparedSample sample),
      ("logistical_sample", dumpOptLogisticalSample ls),
      ("templates", .arr (dumpDatasetList tm)),
      ("input_data", .arr (dumpDatasetList ind)),
      ("reference_data", .arr (dumpDatasetList refd)),
      ("results", .arr (dumpDatasetList res)),
      ("start_time", dumpOptStr st), ("end_time", dumpOptStr et),
      ("job_status", dumpOptJobStatus js)]
def Dataset.dump : Dataset → Json
  | .mk u ext ns src role ls dfi =>
    .obj [("uuid", .str u), ("extensions", .obj ext),
      ("namespace_extensions", dumpNs ns),
      ("source", dumpOptJob src), ("role", dumpOptStr role),
      ("logistical_sample", dumpOptLogisticalSample ls),
      ("derived_from_id", dumpOptStr dfi)]
def LogisticalSample.dump : LogisticalSample → Json
  | .mk u ext ns sample container contents jobs datasets =>
    .obj [("uuid", .str u), ("extensions", .obj ext),
      ("namespace_extensions", dumpNs ns),
      ("sample", dumpOptPreparedSample sample),
      ("container", dumpOptLogisticalSample container),
      ("contents", .arr (dumpLogisticalSampleList contents)),
      ("jobs", .arr (dumpJobList jobs)),
      ("datasets", .arr (dumpDatasetList datasets))]
def PreparedSample.dump : PreparedSample → Json
  | .mk u ext ns lss jobs =>
    .obj [("uuid", .str u), ("extensions", .obj ext),
      ("namespace_extensions", dumpNs ns),
      ("logistical_samples", .arr (dumpLogisticalSampleList lss)),
      ("jobs", .arr (dumpJobList jobs))]
def dumpOptJob : Option Job → Json
  | none => .null
  | some x => Job.dump x
def dumpOptPreparedSample : Option PreparedSample → Json
  | none => .null
  | some x => PreparedSample.dump x
def dumpOptLogisticalSample : Option LogisticalSample → Json
  | none => .null
  | some x => LogisticalSample.dump x
def dumpJobList : List Job → List Json
  | [] => []
  | x :: rest => Job.dump x :: dumpJobList rest
def dumpDatasetList : List Dataset → List Json
  | [] => []
  | x :: rest => Dataset.dump x :: dumpDatasetList rest
def dumpLogisticalSampleList : List LogisticalSample → List Json
  | [] => []
  | x :: rest => LogisticalSample.dump x :: dumpLogisticalSampleList rest
end

mutual
def Job.parse (j : Json) : Except (List VErr) Job :=
  match j with
  | .obj fs =>
    let f0 := vApply (.ok Job.mk) (uuidStr (lookupKey fs "uuid") "uuid")
    let f1 := vApply f0 (dictAny (lookupKey fs "extensions") "extensions")
    let f2 := vApply f1
      (dictBaseModel (lookupKey fs "namespace_extensions") "namespace_extensions")
    let f3 := vApply f2
      (prefixErrs "sample" (parseOptPreparedSample (lookupKey fs "sample")))
    let f4 := vApply f3 (prefixErrs "logistical_sample"
      (parseOptLogisticalSample (lookupKey fs "logistical_sample")))
    let f5 := vApply f4 (parseDatasetListField (lookupKey fs "templates") "templates")
    let f6 := vApply f5 (parseDatasetListField (lookupKey fs "input_data") "input_data")
    let f7 := vApply f6
      (parseDatasetListField (lookupKey fs "reference_data") "reference_data")
    let f8 := vApply f7 (parseDatasetListField (lookupKey fs "results") "results")
    let f9 := vApply f8 (optDatetime (lookupKey fs "start_time") "start_time")
    let f10 := vApply f9 (optDatetime (lookupKey fs "end_time") "end_time")
    vApply f10 (optEnum (lookupKey fs "job_status") "job_status" JobStatus.fromValue)
  | _ => .error [typeErr "Job"]
termination_by sizeOf j
decreasing_by
all_goals simp_wf
all_goals try omega
all_goals apply sizeOf_lookupKey_opt
def Dataset.parse (j : Json) : Except (List VErr) Dataset :=
  match j with
  | .obj fs =>
    let f0 := vApply (.ok Dataset.mk) (uuidStr (lookupKey fs "uuid") "uuid")
    let f1 := vApply f0 (dictAny (lookupKey fs "extensions") "extensions")
    let f2 := vApply f1
      (dictBaseModel (lookupKey fs "namespace_extensions") "namespace_extensions")
    let f3 := vApply f2
      (prefixErrs "source" (parseOptJob (lookupKey fs "source")))
    let f4 := vApply f3 (optStr (lookupKey fs "role") "role")
    let f5 := vApply f4 (prefixErrs "logistical_sample"
      (parseOptLogisticalSample (lookupKey fs "logistical_sample")))
    vApply f5 (optStr (lookupKey fs "derived_from_id") "derived_from_id")
  | _ => .error [typeErr "Dataset"]
termination_by sizeOf j
decreasing_by
all_goals simp_wf
all_goals try omega
all_goals apply sizeOf_lookupKey_opt
def LogisticalSample.parse (j : Json) : Except (List VErr) LogisticalSample :=
  match j with
  | .obj fs =>
    let f0 := vApply (.ok LogisticalSample.mk) (uuidStr (lookupKey fs "uuid") "uuid")
    let f1 := vApply f0 (dictAny (lookupKey fs "extensions") "extensions")
    let f2 := vApply f1
      (dictBaseModel (lookupKey fs "namespace_extensions") "namespace_extensions")
    let f3 := vApply f2
      (prefixErrs "sample" (parseOptPreparedSample (lookupKey fs "sample")))
    let f4 := vApply f3 (prefixErrs "container"
      (parseOptLogisticalSample (lookupKey fs "container")))
    let f5 := vApply f4
      (parseLogisticalSampleListField (lookupKey fs "contents") "contents")
    let f6 := vApply f5 (parseJobListField (lookupKey fs "jobs") "jobs")
    vApply f6 (parseDatasetListField (lookupKey fs "datasets") "datasets")
  | _ => .error [typeErr "LogisticalSample"]
termination_by sizeOf j
decreasing_by
all_goals simp_wf
all_goals try omega
all_goals apply sizeOf_lookupKey_opt
def PreparedSample.parse (j : Json) : Except (List VErr) PreparedSample :=
  match j with
  | .obj fs =>
    let f0 := vApply (.ok PreparedSample.mk) (uuidStr (lookupKey fs "uuid") "uuid")
    let f1 := vApply f0 (dictAny (lookupKey fs "extensions") "extensions")
    let f2 := vApply f1
      (dictBaseModel (lookupKey fs "namespace_extensions") "namespace_extensions")
    let f3 := vApply f2
      (parseLogisticalSampleListField (lookupKey fs "logistical_samples")
        "logistical_samples")
    vApply f3 (parseJobListField (lookupKey fs "jobs") "jobs")
  | _ => .error [typeErr "PreparedSample"]
termination_by sizeOf j
decreasing_by
all_goals simp_wf
all_goals try omega
all_goals apply sizeOf_lookupKey_opt
def parseOptJob : Option Json → Except (List VErr) (Option Job)
  | none => .ok none
  | some .null => .ok none
  | some (.obj fs) => Except.map some (Job.parse (.obj fs))
  | some (.bool b) => Except.map some (Job.parse (.bool b))
  | some (.num q) => Except.map some (Job.parse (.num q))
  | some (.str s) => Except.map some (Job.parse (.str s))
  | some (.arr xs) => Except.map some (Job.parse (.arr xs))
termination_by o => sizeOf o
def parseOptPreparedSample : Option Json → Except (List VErr) (Option PreparedSample)
  | none => .ok none
  | some .null => .ok none
  | some (.obj fs) => Except.map some (PreparedSample.parse (.obj fs))
  | some (.bool b) => Except.map some (PreparedSample.parse (.bool b))
  | some (.num q) => Except.map some (PreparedSample.parse (.num q))
  | some (.str s) => Except.map some (PreparedSample.parse (.str s))
  | some (.arr xs) => Except.map some (PreparedSample.parse (.arr xs))
termination_by o => sizeOf o
def parseOptLogisticalSample : Option Json → Except (List VErr) (Option LogisticalSample)
  | none => .ok none
  | some .null => .ok none
  | some (.obj fs) => Except.map some (LogisticalSample.parse (.obj fs))
  | some (.bool b) => Except.map some (LogisticalSample.parse (.bool b))
  | some (.num q) => Except.map some (LogisticalSample.parse (.num q))
  | some (.str s) => Except.map some (LogisticalSample.parse (.str s))
  | some (.arr xs) => Except.map some (LogisticalSample.parse (.arr xs))
termination_by o => sizeOf o
def parseJobList : List Json → Except (List VErr) (List Job)
  | [] => .ok []
  | x :: rest => vApply (Except.map List.cons (Job.parse x)) (parseJobList rest)
termination_by xs => sizeOf xs
def parseDatasetList : List Json → Except (List VErr) (List Dataset)
  | [] => .ok []
  | x :: rest => vApply (Except.map List.cons (Dataset.parse x)) (parseDatasetList rest)
termination_by xs => sizeOf xs
def parseLogisticalSampleList : List Json → Except (List VErr) (List LogisticalSample)
  | [] => .ok []
  | x :: rest =>
    vApply (Except.map List.cons (LogisticalSample.parse x))
      (parseLogisticalSampleList rest)
termination_by xs => sizeOf xs
def parseJobListField (o : Option Json) (name : String) :
    Except (List VErr) (List Job) :=
  match o with
  | some (.arr xs) => prefixErrs name (parseJobList xs)
  | some _ => .error [typeErr name]
  | none => .ok []
termination_by sizeOf o
def parseDatasetListField (o : Option Json) (name : String) :
    Except (List VErr) (List Dataset) :=
  match o with
  | some (.arr xs) => prefixErrs name (parseDatasetList xs)
  | some _ => .error [typeErr name]
  | none => .ok []
termination_by sizeOf o
def parseLogisticalSampleListField (o : Option Json) (name : String) :
    Except (List VErr) (List LogisticalSample) :=
  match o with
  | some (.arr xs) => prefixErrs name (parseLogisticalSampleList xs)
  | some _ => .error [typeErr name]
  | none => .ok []
termination_by sizeOf o
end

/-- True when every namespaced-extension value is the empty sub-model
payload. Serialization through the bare `BaseModel` annotation is lossless
exactly on such values. -/
def nsEmpty : List (String × Json) → Bool
  | [] => true
  | (_, .obj []) :: rest => nsEmpty rest
  | _ => false

mutual
def Job.nsOK : Job → Bool
  | .mk _ _ ns sample ls tm ind refd res _ _ _ =>
    nsEmpty ns && nsOKOptPreparedSample sample && nsOKOptLogisticalSample ls &&
    nsOKDatasetList tm && nsOKDatasetList ind && nsOKDatasetList refd &&
    nsOKDatasetList res
def Dataset.nsOK : Dataset → Bool
  | .mk _ _ ns src _ ls _ =>
    nsEmpty ns && nsOKOptJob src && nsOKOptLogisticalSample ls
def LogisticalSample.nsOK : LogisticalSample → Bool
  | .mk _ _ ns sample container contents jobs datasets =>
    nsEmpty ns && nsOKOptPreparedSample sample &&
    nsOKOptLogisticalSample container && nsOKLogisticalSampleList contents &&
    nsOKJobList jobs && nsOKDatasetList datasets
def PreparedSample.nsOK : PreparedSample → Bool
  | .mk _ _ ns lss jobs =>
    nsEmpty ns && nsOKLogisticalSampleList lss && nsOKJobList jobs
def nsOKOptJob : Option Job → Bool
  | none => true
  | some x => Job.nsOK x
def nsOKOptPreparedSample : Option PreparedSample → Bool
  | none => true
  | some x => PreparedSample.nsOK x
def nsOKOptLogisticalSample : Option LogisticalSample → Bool
  | none => true
  | some x => LogisticalSample.nsOK x
def nsOKJobList : List Job → Bool
  | [] => true
  | x :: rest => Job.nsOK x && nsOKJobList rest
def nsOKDatasetList : List Dataset → Bool
  | [] => true
  | x :: rest => Dataset.nsOK x && nsOKDatasetList rest
def nsOKLogisticalSampleList : List LogisticalSample → Bool
  | [] => true
  | x :: rest => LogisticalSample.nsOK x && nsOKLogisticalSampleList rest
end

theorem optStr_dump (st : Option String) (name : String) :
    optStr (some (dumpOptStr st)) name = .ok st := by
  cases st <;> rfl

theorem uuidStr_dump (u : String) (name : String) :
    uuidStr (some (.str u)) name = .ok u := rfl

theorem dictAny_dump (ext : List (String × Json)) (name : String) :
    dictAny (some (.obj ext)) name = .ok ext := rfl

theorem dictBaseModelGo_dumpNs (ns : List (String × Json))
    (h : nsEmpty ns = true) :
    dictBaseModelGo (ns.map fun kv => (kv.1, Json.obj [])) = some ns := by
  induction ns with
  | nil => rfl
  | cons kv rest ih =>
    match kv with
    | (k, .obj []) =>
      rw [nsEmpty] at h
      simp only [List.map_cons, dictBaseModelGo, ih h]
      rfl
    | (k, .null) | (k, .bool _) | (k, .num _) | (k, .str _) | (k, .arr _)
    | (k, .obj (_ :: _)) => simp [nsEmpty] at h

theorem dictBaseModel_dump (ns : List (String × Json)) (name : String)
    (h : nsEmpty ns = true) :
    dictBaseModel (some (dumpNs ns)) name = .ok ns := by
  simp [dictBaseModel, dumpNs, dictBaseModelGo_dumpNs ns h]

theorem jobDumpIsObj (p : Job) : ∃ fs, Job.dump p = Json.obj fs := by
  match p with
  | .mk u ext ns sample ls tm ind refd res st et js => exact ⟨_, by rw [Job.dump]⟩

theorem datasetDumpIsObj (p : Dataset) : ∃ fs, Dataset.dump p = Json.obj fs := by
  match p with
  | .mk u ext ns src role ls dfi => exact ⟨_, by rw [Dataset.dump]⟩

theorem logisticalSampleDumpIsObj (p : LogisticalSample) :
    ∃ fs, LogisticalSample.dump p = Json.obj fs := by
  match p with
  | .mk u ext ns sample container contents jobs datasets =>
    exact ⟨_, by rw [LogisticalSample.dump]⟩

theorem preparedSampleDumpIsObj (p : PreparedSample) :
    ∃ fs, PreparedSample.dump p = Json.obj fs := by
  match p with
  | .mk u ext ns lss jobs => exact ⟨_, by rw [PreparedSample.dump]⟩

theorem optEnum_dumpJobStatus (js : Option JobStatus) (name : String) :
    optEnum (some (dumpOptJobStatus js)) name JobStatus.fromValue = .ok js := by
  cases js with
  | none => rfl
  | some s => simp [dumpOptJobStatus, optEnum, JobStatus.fromValue_value]

mutual
theorem jobParseDump (x : Job) (h : Job.nsOK x = true) :
    Job.parse (Job.dump x) = .ok x := by
  match x with
  | .mk u ext ns sample ls tm ind refd res st et js =>
    rw [Job.nsOK] at h
    simp only [Bool.and_eq_true] at h
    obtain ⟨⟨⟨⟨⟨⟨h1, h2⟩, h3⟩, h4⟩, h5⟩, h6⟩, h7⟩ := h
    rw [Job.dump, Job.parse]
    simp [lookupKey, uuidStr_dump, dictAny_dump, optStr_dump,
      dictBaseModel_dump _ _ h1, optEnum_dumpJobStatus, optDatetime,
      parseDatasetListField, prefixErrs,
      parseOptPreparedSample_dump sample h2,
      parseOptLogisticalSample_dump ls h3,
      parseDatasetList_dump tm h4, parseDatasetList_dump ind h5,
      parseDatasetList_dump refd h6, parseDatasetList_dump res h7,
      vApply]
theorem datasetParseDump (x : Dataset) (h : Dataset.nsOK x = true) :
    Dataset.parse (Dataset.dump x) = .ok x := by
  match x with
  | .mk u ext ns src role ls dfi =>
    rw [Dataset.nsOK] at h
    simp only [Bool.and_eq_true] at h
    obtain ⟨⟨h1, h2⟩, h3⟩ := h
    rw [Dataset.dump, Dataset.parse]
    simp [lookupKey, uuidStr_dump, dictAny_dump, optStr_dump,
      dictBaseModel_dump _ _ h1, prefixErrs,
      parseOptJob_dump src h2, parseOptLogisticalSample_dump ls h3,
      vApply]
theorem logisticalSampleParseDump (x : LogisticalSample)
    (h : LogisticalSample.nsOK x = true) :
    LogisticalSample.parse (LogisticalSample.dump x) = .ok x := by
  match x with
  | .mk u ext ns sample container contents jobs datasets =>
    rw [LogisticalSample.nsOK] at h
    simp only [Bool.and_eq_true] at h
    obtain ⟨⟨⟨⟨⟨h1, h2⟩, h3⟩, h4⟩, h5⟩, h6⟩ := h
    rw [LogisticalSample.dump, LogisticalSample.parse]
    simp [lookupKey, uuidStr_dump, dictAny_dump, optStr_dump,
      dictBaseModel_dump _ _ h1, prefixErrs,
      parseJobListField, parseDatasetListField, parseLogisticalSampleListField,
      parseOptPreparedSample_dump sample h2,
      parseOptLogisticalSample_dump container h3,
      parseLogisticalSampleList_dump contents h4,
      parseJobList_dump jobs h5, parseDatasetList_dump datasets h6,
      vApply]
theorem preparedSampleParseDump (x : PreparedSample)
    (h : PreparedSample.nsOK x = true) :
    PreparedSample.parse (PreparedSample.dump x) = .ok x := by
  match x with
  | .mk u ext ns lss jobs =>
    rw [PreparedSample.nsOK] at h
    simp only [Bool.and_eq_true] at h
    obtain ⟨⟨h1, h2⟩, h3⟩ := h
    rw [PreparedSample.dump, PreparedSample.parse]
    simp [lookupKey, uuidStr_dump, dictAny_dump, optStr_dump,
      dictBaseModel_dump _ _ h1, prefixErrs,
      parseJobListField, parseLogisticalSampleListField,
      parseLogisticalSampleList_dump lss h2, parseJobList_dump jobs h3,
      vApply]
theorem parseOptJob_dump (s : Option Job) (h : nsOKOptJob s = true) :
    parseOptJob (some (dumpOptJob s)) = .ok s := by
  match s with
  | none => simp [dumpOptJob, parseOptJob]
  | some p =>
    rw [nsOKOptJob] at h
    have hp := jobParseDump p h
    obtain ⟨fs, hfs⟩ := jobDumpIsObj p
    rw [dumpOptJob, hfs, parseOptJob, ← hfs, hp]
    rfl
theorem parseOptPreparedSample_dump (s : Option PreparedSample)
    (h : nsOKOptPreparedSample s = true) :
    parseOptPreparedSample (some (dumpOptPreparedSample s)) = .ok s := by
  match s with
  | none => simp [dumpOptPreparedSample, parseOptPreparedSample]
  | some p =>
    rw [nsOKOptPreparedSample] at h
    have hp := preparedSampleParseDump p h
    obtain ⟨fs, hfs⟩ := preparedSampleDumpIsObj p
    rw [dumpOptPreparedSample, hfs, parseOptPreparedSample, ← hfs, hp]
    rfl
theorem parseOptLogisticalSample_dump (s : Option LogisticalSample)
    (h : nsOKOptLogisticalSample s = true) :
    parseOptLogisticalSample (some (dumpOptLogisticalSample s)) = .ok s := by
  match s with
  | none => simp [dumpOptLogisticalSample, parseOptLogisticalSample]
  | some p =>
    rw [nsOKOptLogisticalSample] at h
    have hp := logisticalSampleParseDump p h
    obtain ⟨fs, hfs⟩ := logisticalSampleDumpIsObj p
    rw [dumpOptLogisticalSample, hfs, parseOptLogisticalSample, ← hfs, hp]
    rfl
theorem parseJobList_dump (l : List Job) (h : nsOKJobList l = true) :
    parseJobList (dumpJobList l) = .ok l := by
  match l with
  | [] => simp [dumpJobList, parseJobList]
  | x :: rest =>
    rw [nsOKJobList] at h
    simp only [Bool.and_eq_true] at h
    have h1 := jobParseDump x h.1
    have h2 := parseJobList_dump rest h.2
    rw [dumpJobList, parseJobList]
    simp [h1, h2, vApply, Except.map]
theorem parseDatasetList_dump (l : List Dataset) (h : nsOKDatasetList l = true) :
    parseDatasetList (dumpDatasetList l) = .ok l := by
  match l with
  | [] => simp [dumpDatasetList, parseDatasetList]
  | x :: rest =>
    rw [nsOKDatasetList] at h
    simp only [Bool.and_eq_true] at h
    have h1 := datasetParseDump x h.1
    have h2 := parseDatasetList_dump rest h.2
    rw [dumpDatasetList, parseDatasetList]
    simp [h1, h2, vApply, Except.map]
theorem parseLogisticalSampleList_dump (l : List LogisticalSample)
    (h : nsOKLogisticalSampleList l = true) :
    parseLogisticalSampleList (dumpLogisticalSampleList l) = .ok l := by
  match l with
  | [] => simp [dumpLogisticalSampleList, parseLogisticalSampleList]
  | x :: rest =>
    rw [nsOKLogisticalSampleList] at h
    simp only [Bool.and_eq_true] at h
    have h1 := logisticalSampleParseDump x h.1
    have h2 := parseLogisticalSampleList_dump rest h.2
    rw [dumpLogisticalSampleList, parseLogisticalSampleList]
    simp [h1, h2, vApply, Except.map]
end

/-- An assignment attempt `job.<field> = value`, as pydantic `__setattr__`
receives it; one constructor per declared field of Job. -/
inductive JobAttr where
  | uuid (v : String)
  | extensions (v : List (String × Json))
  | namespace_extensions (v : List (String × Json))
  | sample (v : Option PreparedSample)
  | logistical_sample (v : Option LogisticalSample)
  | templates (v : List Dataset)
  | input_data (v : List Dataset)
  | reference_data (v : List Dataset)
  | results (v : List Dataset)
  | start_time (v : Option String)
  | end_time (v : Option String)
  | job_status (v : Option JobStatus)

/-- Frozen-field assignment error, as pydantic v2 raises it. -/
def frozenErr (name : String) : VErr := ⟨name, "Field is frozen"⟩

/-- pydantic `__setattr__` on Job: core.py marks `uuid` (inherited from
MxlimsObject), `sample` and `logistical_sample` with `frozen=True`;
assigning those raises a frozen-field error and the instance is unchanged
(an error result carries no new instance); every other field assignment
succeeds and replaces just that field. -/
def Job.setattr : Job → JobAttr → Except VErr Job
  | _, .uuid _ => .error (frozenErr "uuid")
  | _, .sample _ => .error (frozenErr "sample")
  | _, .logistical_sample _ => .error (frozenErr "logistical_sample")
  | .mk u _ ns sam ls tm ind refd res st et js, .extensions v =>
    .ok (.mk u v ns sam ls tm ind refd res st et js)
  | .mk u ext _ sam ls tm ind refd res st et js, .namespace_extensions v =>
    .ok (.mk u ext v sam ls tm ind refd res st et js)
  | .mk u ext ns sam ls _ ind refd res st et js, .templates v =>
    .ok (.mk u ext ns sam ls v ind refd res st et js)
  | .mk u ext ns sam ls tm _ refd res st et js, .input_data v =>
    .ok (.mk u ext ns sam ls tm v refd res st et js)
  | .mk u ext ns sam ls tm ind _ res st et js, .reference_data v =>
    .ok (.mk u ext ns sam ls tm ind v res st et js)
  | .mk u ext ns sam ls tm ind refd _ st et js, .results v =>
    .ok (.mk u ext ns sam ls tm ind refd v st et js)
  | .mk u ext ns sam ls tm ind refd res _ et js, .start_time v =>
    .ok (.mk u ext ns sam ls tm ind refd res v et js)
  | .mk u ext ns sam ls tm ind refd res st _ js, .end_time v =>
    .ok (.mk u ext ns sam ls tm ind refd res st v js)
  | .mk u ext ns sam ls tm ind refd res st et _, .job_status v =>
    .ok (.mk u ext ns sam ls tm ind refd res st et v)

/-- An assignment attempt `dataset.<field> = value`; one constructor per
declared field of Dataset. -/
inductive DatasetAttr where
  | uuid (v : String)
  | extensions (v : List (String × Json))
  | namespace_extensions (v : List (String × Json))
  | source (v : Option Job)
  | role (v : Option String)
  | logistical_sample (v : Option LogisticalSample)
  | derived_from_id (v : Option String)

/-- pydantic `__setattr__` on Dataset: core.py marks `uuid`, `source`,
`role`, `logistical_sample` and `derived_from_id` with `frozen=True`; only
`extensions` and `namespace_extensions` are assignable. -/
def Dataset.setattr : Dataset → DatasetAttr → Except VErr Dataset
  | _, .uuid _ => .error (frozenErr "uuid")
  | _, .source _ => .error (frozenErr "source")
  | _, .role _ => .error (frozenErr "role")
  | _, .logistical_sample _ => .error (frozenErr "logistical_sample")
  | _, .derived_from_id _ => .error (frozenErr "derived_from_id")
  | .mk u _ ns src role ls dfi, .extensions v =>
    .ok (.mk u v ns src role ls dfi)
  | .mk u ext _ src role ls dfi, .namespace_extensions v =>
    .ok (.mk u ext v src role ls dfi)

/-- C4: frozen fields (MxlimsObject.uuid, Dataset.source, Job.sample, and
the other fields marked `frozen=True` in core.py) accept their value at
construction time only: every later assignment fails with a frozen-field
error and yields no mutated instance, while assignment to a non-frozen
field such as Job.job_status (or start_time, results) succeeds and
replaces exactly that field. -/
theorem frozen_fields_reject_reassignment :
    (∀ (j : Job) (v : String), Job.setattr j (.uuid v) = .error (frozenErr "uuid")) ∧
    (∀ (j : Job) (v : Option PreparedSample),
      Job.setattr j (.sample v) = .error (frozenErr "sample")) ∧
    (∀ (j : Job) (v : Option LogisticalSample),
      Job.setattr j (.logistical_sample v) = .error (frozenErr "logistical_sample")) ∧
    (∀ (d : Dataset) (v : String),
      Dataset.setattr d (.uuid v) = .error (frozenErr "uuid")) ∧
    (∀ (d : Dataset) (v : Option Job),
      Dataset.setattr d (.source v) = .error (frozenErr "source")) ∧
    (∀ (d : Dataset) (v : Option String),
      Dataset.setattr d (.role v) = .error (frozenErr "role")) ∧
    (∀ (d : Dataset) (v : Option LogisticalSample),
      Dataset.setattr d (.logistical_sample v) = .error (frozenErr "logistical_sample")) ∧
    (∀ (d : Dataset) (v : Option String),
      Dataset.setattr d (.derived_from_id v) = .error (frozenErr "derived_from_id")) ∧
    (∀ (u : String) (ext ns : List (String × Json)) (sam : Option PreparedSample)
      (ls : Option LogisticalSample) (tm ind refd res : List Dataset)
      (st et : Option String) (js v : Option JobStatus),
      Job.setattr (.mk u ext ns sam ls tm ind refd res st et js) (.job_status v) =
        .ok (.mk u ext ns sam ls tm ind refd res st et v)) ∧
    (∀ (u : String) (ext ns : List (String × Json)) (sam : Option PreparedSample)
      (ls : Option LogisticalSample) (tm ind refd res : List Dataset)
      (st et : Option String) (js : Option JobStatus) (v : Option String),
      Job.setattr (.mk u ext ns sam ls tm ind refd res st et js) (.start_time v) =
        .ok (.mk u ext ns sam ls tm ind refd res v et js)) ∧
    (∀ (u : String) (ext ns : List (String × Json)) (sam : Option PreparedSample)
      (ls : Option LogisticalSample) (tm ind refd res : List Dataset)
      (st et : Option String) (js : Option JobStatus) (v : List Dataset),
      Job.setattr (.mk u ext ns sam ls tm ind refd res st et js) (.results v) =
        .ok (.mk u ext ns sam ls tm ind refd v st et js)) := by
  refine ⟨fun j v => ?_, fun j v => ?_, fun j v => ?_, fun d v => ?_,
    fun d v => ?_, fun d v => ?_, fun d v => ?_, fun d v => ?_,
    ?_, ?_, ?_⟩
  · cases j; rfl
  · cases j; rfl
  · cases j; rfl
  · cases d; rfl
  · cases d; rfl
  · cases d; rfl
  · cases d; rfl
  · cases d; rfl
  · intros; rfl
  · intros; rfl
  · intros; rfl

/-- C2 (code bug): core.py line 40 declares the enum member `Failed` with
the string value "\tFailed" (a literal tab before "Failed"), while every
other JobStatus member has a value equal to its name. So a Job whose
job_status is the documented string "Failed" is rejected as an invalid
enum member, while the tab-prefixed string is accepted; the other five
documented values validate as expected. -/
theorem jobStatus_Failed_value_has_tab :
    JobStatus.fromValue "Template" = some .Template ∧
    JobStatus.fromValue "Ready" = some .Ready ∧
    JobStatus.fromValue "Running" = some .Running ∧
    JobStatus.fromValue "Completed" = some .Completed ∧
    JobStatus.fromValue "Aborted" = some .Aborted ∧
    JobStatus.fromValue "Failed" = none ∧
    JobStatus.fromValue "\tFailed" = some .Failed ∧
    Job.parse (.obj [("job_status", .str "Failed")]) =
      .error [enumErr "job_status"] ∧
    Job.parse (.obj [("job_status", .str "\tFailed")]) =
      .ok (.mk freshUuid [] [] none none [] [] [] [] none none (some .Failed)) := by
  refine ⟨rfl, rfl, rfl, rfl, rfl, rfl, rfl, ?_, ?_⟩ <;>
    simp [Job.parse, lookupKey, uuidStr, dictAny, dictBaseModel,
      parseOptPreparedSample, parseOptLogisticalSample, parseDatasetListField,
      optDatetime, optStr, optEnum, JobStatus.fromValue, vApply, prefixErrs]

/-- A Job carrying a namespaced extension whose sub-model holds data. -/
def jobBadNs : Job :=
  .mk "u1" [] [("GPhL", .obj [("x", .num 1)])] none none [] [] [] [] none none none

/-- C6 (counterexample): serialize-then-deserialize is not the identity on
every valid entity. core.py declares `namespace_extensions` as
`Dict[str, BaseModel]`, and pydantic v2 serializes each value through the
declared `BaseModel` annotation (which has no fields) and re-validates the
resulting empty object into an empty base model, so a Job whose namespaced
extension sub-model carries data round-trips to a Job whose sub-model is
empty, not to itself. -/
theorem job_roundtrip_drops_ns_extension_content :
    Job.parse (Job.dump jobBadNs) =
      .ok (.mk "u1" [] [("GPhL", .obj [])] none none [] [] [] [] none none none) ∧
    Job.parse (Job.dump jobBadNs) ≠ .ok jobBadNs := by
  have h : Job.parse (Job.dump jobBadNs) =
      .ok (.mk "u1" [] [("GPhL", .obj [])] none none [] [] [] [] none none none) := by
    simp [jobBadNs, Job.dump, Job.parse, dumpNs, lookupKey, uuidStr, dictAny,
      dictBaseModel, dictBaseModelGo, parseOptPreparedSample,
      parseOptLogisticalSample, parseDatasetListField, parseDatasetList,
      optDatetime, optStr, optEnum, vApply, prefixErrs, dumpOptStr,
      dumpOptJobStatus, dumpOptPreparedSample, dumpOptLogisticalSample,
      dumpDatasetList, Except.map]
  refine ⟨h, ?_⟩
  rw [h, jobBadNs]
  simp

/-- `class Scan(BaseModel)` of crystallography.py: all four fields are
required and unconstrained. -/
structure Scan where
  scan_position_start : ℚ
  first_image_no : ℤ
  num_images : ℤ
  ordinal : ℤ
deriving DecidableEq

def Scan.parse (j : Json) : Except (List VErr) Scan :=
  match j with
  | .obj fs =>
    vApply (vApply (vApply (vApply (.ok Scan.mk)
      (reqNum (lookupKey fs "scan_position_start") "scan_position_start" none none))
      (reqInt (lookupKey fs "first_image_no") "first_image_no"))
      (reqInt (lookupKey fs "num_images") "num_images"))
      (reqInt (lookupKey fs "ordinal") "ordinal")
  | _ => .error [typeErr "Scan"]

def Scan.dump (s : Scan) : Json :=
  .obj [("scan_position_start", .num s.scan_position_start),
    ("first_image_no", .num (s.first_image_no : ℚ)),
    ("num_images", .num (s.num_images : ℚ)),
    ("ordinal", .num (s.ordinal : ℚ))]

def dumpOptNum : Option ℚ → Json
  | none => .null
  | some q => .num q

def dumpOptInt : Option ℤ → Json
  | none => .null
  | some i => .num (i : ℚ)

def dumpOptPair : Option (ℚ × ℚ) → Json
  | none => .null
  | some p => .arr [.num p.1, .num p.2]

def dumpDictNum (l : List (String × ℚ)) : Json :=
  .obj (l.map fun kv => (kv.1, Json.num kv.2))

def dumpScanList (l : List Scan) : List Json := l.map Scan.dump

def parseScanList : List Json → Except (List VErr) (List Scan)
  | [] => .ok []
  | x :: rest => vApply (Except.map List.cons (Scan.parse x)) (parseScanList rest)

def parseScanListField (o : Option Json) (name : String) :
    Except (List VErr) (List Scan) :=
  match o with
  | some (.arr xs) => prefixErrs name (parseScanList xs)
  | some _ => .error [typeErr name]
  | none => .ok []

/-- Sequence a pure discriminator check into an applicative validation
chain, still accumulating errors from both sides. -/
def vSeq (a : Except (List VErr) α) (c : Except (List VErr) Unit) :
    Except (List VErr) α :=
  vApply (Except.map (fun x (_ : Unit) => x) a) c

/-- `class CollectionSweep(Dataset)` of crystallography.py: the seven
inherited Dataset fields followed by the own fields of the sweep in declaration
order. The required `mxlims_type: Literal["CollectionSweep"]` tag is
enforced on validation and emitted on serialization (its stored value is
the constant literal). The source field name of `prefix_` is `prefix`,
which is not a legal Lean identifier. -/
structure CollectionSweep where
  uuid : String
  extensions : List (String × Json)
  namespace_extensions : List (String × Json)
  source : Option Job
  role : Option String
  logistical_sample : Option LogisticalSample
  derived_from_id : Option String
  annotation : Option String
  exposure_time : Option ℚ
  image_width : Option ℚ
  energy : Option ℚ
  transmission : Option ℚ
  detector_type : Option String
  detector_binning_mode : Option String
  detector_roi_mode : Option String
  beam_position : Option (ℚ × ℚ)
  beam_size : Option (ℚ × ℚ)
  beam_shape : Option String
  axis_positions_start : List (String × ℚ)
  axis_positions_end : List (String × ℚ)
  scan_axis : String
  overlap : Option ℚ
  num_triggers : Option ℤ
  num_images_per_trigger : Option ℤ
  scans : List Scan
  file_type : Option String
  prefix_ : Option String
  filename_template : Option String
  path : Option String

def CollectionSweep.parse (j : Json) : Except (List VErr) CollectionSweep :=
  match j with
  | .obj fs =>
    let f0 := vApply (.ok CollectionSweep.mk) (uuidStr (lookupKey fs "uuid") "uuid")
    let f1 := vApply f0 (dictAny (lookupKey fs "extensions") "extensions")
    let f2 := vApply f1
      (dictBaseModel (lookupKey fs "namespace_extensions") "namespace_extensions")
    let f3 := vApply f2
      (prefixErrs "source" (parseOptJob (lookupKey fs "source")))
    let f4 := vApply f3 (optStr (lookupKey fs "role") "role")
    let f5 := vApply f4 (prefixErrs "logistical_sample"
      (parseOptLogisticalSample (lookupKey fs "logistical_sample")))
    let f6 := vApply f5 (optStr (lookupKey fs "derived_from_id") "derived_from_id")
    let f7 := vSeq f6
      (reqLiteral (lookupKey fs "mxlims_type") "mxlims_type" "CollectionSweep")
    let f8 := vApply f7 (optStr (lookupKey fs "annotation") "annotation")
    let f9 := vApply f8 (optNum (lookupKey fs "exposure_time") "exposure_time" none none)
    let f10 := vApply f9 (optNum (lookupKey fs "image_width") "image_width" none none)
    let f11 := vApply f10 (optNum (lookupKey fs "energy") "energy" none none)
    let f12 := vApply f11
      (optNum (lookupKey fs "transmission") "transmission" (some 0) (some 100))
    let f13 := vApply f12 (optStr (lookupKey fs "detector_type") "detector_type")
    let f14 := vApply f13
      (optStr (lookupKey fs "detector_binning_mode") "detector_binning_mode")
    let f15 := vApply f14
      (optStr (lookupKey fs "detector_roi_mode") "detector_roi_mode")
    let f16 := vApply f15 (optPairNum (lookupKey fs "beam_position") "beam_position")
    let f17 := vApply f16 (optPairNum (lookupKey fs "beam_size") "beam_size")
    let f18 := vApply f17 (optStr (lookupKey fs "beam_shape") "beam_shape")
    let f19 := vApply f18
      (dictNum (lookupKey fs "axis_positions_start") "axis_positions_start")
    let f20 := vApply f19
      (dictNum (lookupKey fs "axis_positions_end") "axis_positions_end")
    let f21 := vApply f20 (reqStr (lookupKey fs "scan_axis") "scan_axis")
    let f22 := vApply f21 (optNum (lookupKey fs "overlap") "overlap" none none)
    let f23 := vApply f22 (optInt (lookupKey fs "num_triggers") "num_triggers" false)
    let f24 := vApply f23
      (optInt (lookupKey fs "num_images_per_trigger") "num_images_per_trigger" false)
    let f25 := vApply f24 (parseScanListField (lookupKey fs "scans") "scans")
    let f26 := vApply f25 (optStr (lookupKey fs "file_type") "file_type")
    let f27 := vApply f26 (optStr (lookupKey fs "prefix") "prefix")
    let f28 := vApply f27
      (optStr (lookupKey fs "filename_template") "filename_template")
    vApply f28 (optStr (lookupKey fs "path") "path")
  | _ => .error [typeErr "CollectionSweep"]

def CollectionSweep.dump (c : CollectionSweep) : Json :=
  match c with
  | .mk u ext ns src role ls dfi ann expt imgw energy tqv dtype dbin droi
      bpos bsize bshape axst axend saxis ovl ntrig nipt scans ftype pfx ftmpl
      path =>
    .obj [("uuid", .str u), ("extensions", .obj ext),
      ("namespace_extensions", dumpNs ns),
      ("source", dumpOptJob src), ("role", dumpOptStr role),
      ("logistical_sample", dumpOptLogisticalSample ls),
      ("derived_from_id", dumpOptStr dfi),
      ("mxlims_type", .str "CollectionSweep"),
      ("annotation", dumpOptStr ann),
      ("exposure_time", dumpOptNum expt),
      ("image_width", dumpOptNum imgw),
      ("energy", dumpOptNum energy),
      ("transmission", dumpOptNum tqv),
      ("detector_type", dumpOptStr dtype),
      ("detector_binning_mode", dumpOptStr dbin),
      ("detector_roi_mode", dumpOptStr droi),
      ("beam_position", dumpOptPair bpos),
      ("beam_size", dumpOptPair bsize),
      ("beam_shape", dumpOptStr bshape),
      ("axis_positions_start", dumpDictNum axst),
      ("axis_positions_end", dumpDictNum axend),
      ("scan_axis", .str saxis),
      ("overlap", dumpOptNum ovl),
      ("num_triggers", dumpOptInt ntrig),
      ("num_images_per_trigger", dumpOptInt nipt),
      ("scans", .arr (dumpScanList scans)),
      ("file_type", dumpOptStr ftype),
      ("prefix", dumpOptStr pfx),
      ("filename_template", dumpOptStr ftmpl),
      ("path", dumpOptStr path)]

/-- Declared-constraint check for a stored transmission value
(ge=0, le=100 in the source). -/
def transmissionOK : Option ℚ → Bool
  | none => true
  | some q => boundsOk (some 0) (some 100) q

/-- A CollectionSweep value is valid when its stored fields satisfy the
declared constraints, and serialization-friendly when its namespaced
extension sub-models are empty. -/
def CollectionSweep.nsOK (c : CollectionSweep) : Bool :=
  nsEmpty c.namespace_extensions && nsOKOptJob c.source &&
  nsOKOptLogisticalSample c.logistical_sample && transmissionOK c.transmission

theorem optNum_dump_free (t : Option ℚ) (name : String) :
    optNum (some (dumpOptNum t)) name none none = .ok t := by
  cases t <;> simp [optNum, dumpOptNum, boundsOk]

theorem optNum_dump_trans (t : Option ℚ) (name : String)
    (h : transmissionOK t = true) :
    optNum (some (dumpOptNum t)) name (some 0) (some 100) = .ok t := by
  cases t with
  | none => simp [dumpOptNum, optNum]
  | some q =>
    rw [transmissionOK] at h
    simp [dumpOptNum, optNum, h]

theorem optInt_dump (t : Option ℤ) (name : String) :
    optInt (some (dumpOptInt t)) name false = .ok t := by
  cases t <;> simp [optInt, dumpOptInt, Rat.den_intCast, Rat.num_intCast]

theorem optPair_dump (t : Option (ℚ × ℚ)) (name : String) :
    optPairNum (some (dumpOptPair t)) name = .ok t := by
  cases t with
  | none => rfl
  | some p => cases p; rfl

theorem dictNumGo_dump (l : List (String × ℚ)) :
    dictNumGo (l.map fun kv => (kv.1, Json.num kv.2)) = some l := by
  induction l with
  | nil => rfl
  | cons kv rest ih =>
    cases kv
    simp [dictNumGo, ih]

theorem dictNum_dump (l : List (String × ℚ)) (name : String) :
    dictNum (some (dumpDictNum l)) name = .ok l := by
  simp [dictNum, dumpDictNum, dictNumGo_dump]

theorem reqStr_dump (v name : String) : reqStr (some (.str v)) name = .ok v := rfl

theorem reqLiteral_self (name v : String) :
    reqLiteral (some (.str v)) name v = .ok () := by
  simp [reqLiteral]

theorem vSeq_ok (a : Except (List VErr) α) : vSeq a (.ok ()) = a := by
  cases a <;> simp [vSeq, vApply, Except.map]

theorem scanParseDump (s : Scan) : Scan.parse (Scan.dump s) = .ok s := by
  cases s
  simp [Scan.parse, Scan.dump, lookupKey, reqNum, reqInt, boundsOk, vApply,
    Rat.den_intCast, Rat.num_intCast]

theorem parseScanList_dump (l : List Scan) :
    parseScanList (dumpScanList l) = .ok l := by
  induction l with
  | nil => simp [dumpScanList, parseScanList]
  | cons x rest ih =>
    simp only [dumpScanList, List.map_cons] at *
    simp [parseScanList, scanParseDump, ih, vApply, Except.map]

theorem collectionSweepParseDump (c : CollectionSweep)
    (h : c.nsOK = true) :
    CollectionSweep.parse (CollectionSweep.dump c) = .ok c := by
  match c with
  | .mk u ext ns src role ls dfi ann expt imgw energy tqv dtype dbin droi
      bpos bsize bshape axst axend saxis ovl ntrig nipt scans ftype pfx ftmpl
      path =>
    simp only [CollectionSweep.nsOK, Bool.and_eq_true] at h
    obtain ⟨⟨⟨h1, h2⟩, h3⟩, h4⟩ := h
    rw [CollectionSweep.dump]
    simp [CollectionSweep.parse, lookupKey, uuidStr_dump, dictAny_dump,
      optStr_dump, dictBaseModel_dump _ _ h1, prefixErrs,
      parseOptJob_dump src h2, parseOptLogisticalSample_dump ls h3,
      optNum_dump_free, optNum_dump_trans _ _ h4, optInt_dump, optPair_dump,
      dictNum_dump, reqStr_dump, reqLiteral_self, vSeq_ok,
      parseScanListField, parseScanList_dump, vApply]

/-- C6 (amended): serializing a valid entity and re-validating the JSON is
the identity in every field for entities whose namespaced-extension
sub-models carry no data (and whose stored values satisfy their declared
constraints); entities with data-carrying namespace_extensions lose that
data, as the counterexample shows. Stated for the modelled entity types of
core.py and for CollectionSweep and Scan of crystallography.py. -/
theorem roundtrip_identity_on_valid_entities :
    (∀ x : Job, Job.nsOK x = true → Job.parse (Job.dump x) = .ok x) ∧
    (∀ x : Dataset, Dataset.nsOK x = true →
      Dataset.parse (Dataset.dump x) = .ok x) ∧
    (∀ x : LogisticalSample, LogisticalSample.nsOK x = true →
      LogisticalSample.parse (LogisticalSample.dump x) = .ok x) ∧
    (∀ x : PreparedSample, PreparedSample.nsOK x = true →
      PreparedSample.parse (PreparedSample.dump x) = .ok x) ∧
    (∀ s : Scan, Scan.parse (Scan.dump s) = .ok s) ∧
    (∀ c : CollectionSweep, CollectionSweep.nsOK c = true →
      CollectionSweep.parse (CollectionSweep.dump c) = .ok c) :=
  ⟨jobParseDump, datasetParseDump, logisticalSampleParseDump,
    preparedSampleParseDump, scanParseDump, collectionSweepParseDump⟩

/-- A concrete valid Job with an empty namespaced-extension sub-model. -/
def jobW : Job :=
  .mk "u2" [("a", .num 2)] [("GPhL", .obj [])] none none [] [] [] []
    (some "2024-10-17T10:00:00") none (some .Completed)

theorem roundtrip_identity_witness :
    Job.nsOK jobW = true ∧ Job.parse (Job.dump jobW) = .ok jobW :=
  ⟨by simp [jobW, Job.nsOK, nsEmpty, nsOKOptPreparedSample,
      nsOKOptLogisticalSample, nsOKDatasetList],
    roundtrip_identity_on_valid_entities.1 jobW
      (by simp [jobW, Job.nsOK, nsEmpty, nsOKOptPreparedSample,
        nsOKOptLogisticalSample, nsOKDatasetList])⟩

/-- The JSON fields of the C7 scenario: scan_axis, axis position maps and
image_width, with no scans list and no mxlims_type tag. -/
def c7Fields : List (String × Json) :=
  [("scan_axis", .str "Omega"),
   ("axis_positions_start", .obj [("Omega", .num 0)]),
   ("axis_positions_end", .obj [("Omega", .num 180)]),
   ("image_width", .num (1/10))]

/-- C7 (counterexample): `mxlims_type: Literal["CollectionSweep"]` has no
default in crystallography.py, so constructing a CollectionSweep from the
scenario payload without the tag fails with a missing-required-field error
naming mxlims_type, rather than succeeding. -/
theorem collectionSweep_without_tag_rejected :
    CollectionSweep.parse (.obj c7Fields) = .error [missingErr "mxlims_type"] := by
  simp [c7Fields, CollectionSweep.parse, lookupKey, uuidStr, dictAny,
    dictBaseModel, dictBaseModelGo, parseOptJob, parseOptLogisticalSample,
    optStr, optNum, optInt, optPairNum, dictNum, dictNumGo, reqStr,
    reqLiteral, vSeq, parseScanListField, vApply, prefixErrs, Except.map,
    boundsOk]

/-- C7 (amended): with the required discriminator tag supplied in addition
to scan_axis="Omega", the axis position maps and image_width=0.1,
construction succeeds and the scans field defaults to the empty list. -/
theorem collectionSweep_scans_default_empty :
    Except.map CollectionSweep.scans
      (CollectionSweep.parse
        (.obj (("mxlims_type", .str "CollectionSweep") :: c7Fields))) =
      .ok [] ∧
    CollectionSweep.parse
      (.obj (("mxlims_type", .str "CollectionSweep") :: c7Fields)) =
      .ok ⟨freshUuid, [], [], none, none, none, none, none, none,
        some (1/10), none, none, none, none, none, none, none, none,
        [("Omega", 0)], [("Omega", 180)], "Omega", none, none, none, [],
        none, none, none, none⟩ := by
  have h : CollectionSweep.parse
      (.obj (("mxlims_type", .str "CollectionSweep") :: c7Fields)) =
      .ok ⟨freshUuid, [], [], none, none, none, none, none, none,
        some (1/10), none, none, none, none, none, none, none, none,
        [("Omega", 0)], [("Omega", 180)], "Omega", none, none, none, [],
        none, none, none, none⟩ := by
    simp [c7Fields, CollectionSweep.parse, lookupKey, uuidStr, dictAny,
      dictBaseModel, dictBaseModelGo, parseOptJob, parseOptLogisticalSample,
      optStr, optNum, optInt, optPairNum, dictNum, dictNumGo, reqStr,
      reqLiteral, vSeq, parseScanListField, vApply, prefixErrs, Except.map,
      boundsOk]
  exact ⟨by rw [h]; rfl, h⟩

/-- C8: CollectionSweep.transmission declares ge=0, le=100, so validation
rejects -0.001 and 100.001 with an out-of-range error and accepts the
boundary values 0 and 100. -/
theorem transmission_bounds_enforced :
    CollectionSweep.parse (.obj [("mxlims_type", .str "CollectionSweep"),
      ("scan_axis", .str "Omega"), ("transmission", .num (-1/1000))]) =
      .error [rangeErr "transmission"] ∧
    CollectionSweep.parse (.obj [("mxlims_type", .str "CollectionSweep"),
      ("scan_axis", .str "Omega"), ("transmission", .num (100001/1000))]) =
      .error [rangeErr "transmission"] ∧
    Except.map CollectionSweep.transmission
      (CollectionSweep.parse (.obj [("mxlims_type", .str "CollectionSweep"),
        ("scan_axis", .str "Omega"), ("transmission", .num 0)])) =
      .ok (some 0) ∧
    Except.map CollectionSweep.transmission
      (CollectionSweep.parse (.obj [("mxlims_type", .str "CollectionSweep"),
        ("scan_axis", .str "Omega"), ("transmission", .num 100)])) =
      .ok (some 100) := by
  have hb1 : boundsOk (some 0) (some 100) (-1/1000) = false := by
    norm_num [boundsOk]
  have hb2 : boundsOk (some 0) (some 100) (100001/1000) = false := by
    norm_num [boundsOk]
  have hb3 : boundsOk (some 0) (some 100) 0 = true := by norm_num [boundsOk]
  have hb4 : boundsOk (some 0) (some 100) 100 = true := by norm_num [boundsOk]
  refine ⟨?_, ?_, ?_, ?_⟩ <;>
    simp [CollectionSweep.parse, lookupKey, uuidStr, dictAny,
      dictBaseModel, dictBaseModelGo, parseOptJob, parseOptLogisticalSample,
      optStr, optNum, optInt, optPairNum, dictNum, dictNumGo, reqStr,
      reqLiteral, vSeq, parseScanListField, vApply, prefixErrs, Except.map,
      hb1, hb2, hb3, hb4]

/-- Required enum field, given the value-to-member function of the enum. -/
def reqEnum (o : Option Json) (name : String)
    (fromValue : String → Option α) : Except (List VErr) α :=
  match o with
  | some (.str s) =>
      match fromValue s with
      | some a => .ok a
      | none => .error [enumErr name]
  | some _ => .error [enumErr name]
  | none => .error [missingErr name]

/-- Required pair-of-floats field (`Tuple[float, float]`). -/
def reqPairNum (o : Option Json) (name : String) :
    Except (List VErr) (ℚ × ℚ) :=
  match o with
  | some (.arr [.num a, .num b]) => .ok (a, b)
  | some _ => .error [typeErr name]
  | none => .error [missingErr name]

/-- `class QualityFactorType(str, enum.Enum)` of crystallography.py. -/
inductive QualityFactorType where
  | R_merge : QualityFactorType
  | R_meas : QualityFactorType
  | R_pim : QualityFactorType
  | I_over_SigI : QualityFactorType
  | CC_half : QualityFactorType
  | CC_ano : QualityFactorType
  | SigAno : QualityFactorType
  | Completeness : QualityFactorType
  | Redundancy : QualityFactorType
deriving DecidableEq

def QualityFactorType.value : QualityFactorType → String
  | .R_merge => "R(merge)"
  | .R_meas => "R(meas)"
  | .R_pim => "R(pim)"
  | .I_over_SigI => "I/SigI"
  | .CC_half => "CC(1/2)"
  | .CC_ano => "CC(ano)"
  | .SigAno => "SigAno"
  | .Completeness => "Completeness"
  | .Redundancy => "Redundancy"

def QualityFactorType.fromValue (s : String) : Option QualityFactorType :=
  if s = "R(merge)" then some .R_merge
  else if s = "R(meas)" then some .R_meas
  else if s = "R(pim)" then some .R_pim
  else if s = "I/SigI" then some .I_over_SigI
  else if s = "CC(1/2)" then some .CC_half
  else if s = "CC(ano)" then some .CC_ano
  else if s = "SigAno" then some .SigAno
  else if s = "Completeness" then some .Completeness
  else if s = "Redundancy" then some .Redundancy
  else none

/-- `class QualityFactor(BaseModel)`: an enumerated quality factor type
with its value; both fields required. -/
structure QualityFactor where
  type : QualityFactorType
  value : ℚ
deriving DecidableEq

def QualityFactor.parse (j : Json) : Except (List VErr) QualityFactor :=
  match j with
  | .obj fs =>
    vApply (vApply (.ok QualityFactor.mk)
      (reqEnum (lookupKey fs "type") "type" QualityFactorType.fromValue))
      (reqNum (lookupKey fs "value") "value" none none)
  | _ => .error [typeErr "QualityFactor"]

def parseQualityFactorList : List Json → Except (List VErr) (List QualityFactor)
  | [] => .ok []
  | x :: rest =>
    vApply (Except.map List.cons (QualityFactor.parse x))
      (parseQualityFactorList rest)

def parseQualityFactorListField (o : Option Json) (name : String) :
    Except (List VErr) (List QualityFactor) :=
  match o with
  | some (.arr xs) => prefixErrs name (parseQualityFactorList xs)
  | some _ => .error [typeErr name]
  | none => .ok []

/-- `class ReflectionStatistics(BaseModel)` of crystallography.py:
per-shell reflection statistics. resolution_limits, number_observations,
number_unique_observations, completeness (ge 0, le 100), redundancy (ge 0)
and redundancy_anomalous (ge 0) are required; chi_squared (ge 0),
number_rejected_reflns and quality_factors are optional/defaulted. -/
structure ReflectionStatistics where
  resolution_limits : ℚ × ℚ
  number_observations : ℤ
  number_unique_observations : ℤ
  quality_factors : List QualityFactor
  completeness : ℚ
  chi_squared : Option ℚ
  number_rejected_reflns : Option ℤ
  redundancy : ℚ
  redundancy_anomalous : ℚ
deriving DecidableEq

def ReflectionStatistics.parse (j : Json) :
    Except (List VErr) ReflectionStatistics :=
  match j with
  | .obj fs =>
    let f0 := vApply (.ok ReflectionStatistics.mk)
      (reqPairNum (lookupKey fs "resolution_limits") "resolution_limits")
    let f1 := vApply f0
      (reqInt (lookupKey fs "number_observations") "number_observations")
    let f2 := vApply f1 (reqInt (lookupKey fs "number_unique_observations")
      "number_unique_observations")
    let f3 := vApply f2
      (parseQualityFactorListField (lookupKey fs "quality_factors")
        "quality_factors")
    let f4 := vApply f3
      (reqNum (lookupKey fs "completeness") "completeness" (some 0) (some 100))
    let f5 := vApply f4
      (optNum (lookupKey fs "chi_squared") "chi_squared" (some 0) none)
    let f6 := vApply f5
      (optInt (lookupKey fs "number_rejected_reflns") "number_rejected_reflns"
        false)
    let f7 := vApply f6
      (reqNum (lookupKey fs "redundancy") "redundancy" (some 0) none)
    vApply f7 (reqNum (lookupKey fs "redundancy_anomalous")
      "redundancy_anomalous" (some 0) none)
  | _ => .error [typeErr "ReflectionStatistics"]

theorem mem_errsOf_isError {a : Except (List VErr) α} {e : VErr}
    (h : e ∈ errsOf a) : ∃ errs, a = .error errs ∧ e ∈ errs := by
  cases a with
  | ok _ => simp [errsOf] at h
  | error errs => exact ⟨errs, rfl, h⟩

/-- C5: construction with all required fields and in-range values succeeds;
any violation fails with an error list naming every violated field, not
just the first; and omitting any required field fails with an error naming
that field. Stated for Scan and ReflectionStatistics, the cited concrete
types: (1) a fully valid Scan payload validates to the expected record;
(2) for any payload object missing any of the four required Scan fields, the
result is an error naming that field; (3) a Scan payload missing two
fields reports both; (4) a fully valid ReflectionStatistics payload
validates; (5) a payload violating two range constraints reports both;
(6) the empty payload reports every required field as missing. -/
theorem construction_validation_collects_all_violations :
    (∀ (p : ℚ) (i n o : ℤ), Scan.parse (.obj
      [("scan_position_start", .num p), ("first_image_no", .num (i : ℚ)),
       ("num_images", .num (n : ℚ)), ("ordinal", .num (o : ℚ))]) =
      .ok ⟨p, i, n, o⟩) ∧
    (∀ (fs : List (String × Json)) (name : String),
      (name = "scan_position_start" ∨ name = "first_image_no" ∨
       name = "num_images" ∨ name = "ordinal") →
      lookupKey fs name = none →
      ∃ errs, Scan.parse (.obj fs) = .error errs ∧ missingErr name ∈ errs) ∧
    (Scan.parse (.obj [("num_images", .num 3), ("ordinal", .num 1)]) =
      .error [missingErr "scan_position_start", missingErr "first_image_no"]) ∧
    (ReflectionStatistics.parse (.obj
      [("resolution_limits", .arr [.num 2, .num 50]),
       ("number_observations", .num 1000),
       ("number_unique_observations", .num 200),
       ("completeness", .num 99), ("redundancy", .num 5),
       ("redundancy_anomalous", .num 3)]) =
      .ok ⟨(2, 50), 1000, 200, [], 99, none, none, 5, 3⟩) ∧
    (ReflectionStatistics.parse (.obj
      [("resolution_limits", .arr [.num 2, .num 50]),
       ("number_observations", .num 1000),
       ("number_unique_observations", .num 200),
       ("completeness", .num 150), ("redundancy", .num (-1)),
       ("redundancy_anomalous", .num 3)]) =
      .error [rangeErr "completeness", rangeErr "redundancy"]) ∧
    (ReflectionStatistics.parse (.obj []) =
      .error [missingErr "resolution_limits", missingErr "number_observations",
        missingErr "number_unique_observations", missingErr "completeness",
        missingErr "redundancy", missingErr "redundancy_anomalous"]) := by
  have hb99 : boundsOk (some 0) (some 100) 99 = true := by norm_num [boundsOk]
  have hb150 : boundsOk (some 0) (some 100) 150 = false := by
    norm_num [boundsOk]
  have hb5 : boundsOk (some 0) none 5 = true := by norm_num [boundsOk]
  have hb3 : boundsOk (some 0) none 3 = true := by norm_num [boundsOk]
  have hbm1 : boundsOk (some 0) none (-1) = false := by norm_num [boundsOk]
  refine ⟨?_, ?_, ?_, ?_, ?_, ?_⟩
  · intro p i n o
    simp [Scan.parse, lookupKey, reqNum, reqInt, boundsOk, vApply,
      Rat.den_intCast, Rat.num_intCast]
  · intro fs name hname hnone
    refine mem_errsOf_isError ?_
    simp only [Scan.parse]
    rcases hname with h | h | h | h
    · subst h
      apply errsOf_vApply_left
      apply errsOf_vApply_left
      apply errsOf_vApply_left
      apply errsOf_vApply_right
      simp [reqNum, hnone, errsOf]
    · subst h
      apply errsOf_vApply_left
      apply errsOf_vApply_left
      apply errsOf_vApply_right
      simp [reqInt, hnone, errsOf]
    · subst h
      apply errsOf_vApply_left
      apply errsOf_vApply_right
      simp [reqInt, hnone, errsOf]
    · subst h
      apply errsOf_vApply_right
      simp [reqInt, hnone, errsOf]
  · simp [Scan.parse, lookupKey, reqNum, reqInt, vApply]
  · simp [ReflectionStatistics.parse, lookupKey, reqPairNum, reqInt, reqNum,
      optNum, optInt, parseQualityFactorListField, vApply, prefixErrs,
      hb99, hb5, hb3]
  · simp [ReflectionStatistics.parse, lookupKey, reqPairNum, reqInt, reqNum,
      optNum, optInt, parseQualityFactorListField, vApply, prefixErrs,
      hb150, hbm1, hb3]
  · simp [ReflectionStatistics.parse, lookupKey, reqPairNum, reqInt, reqNum,
      optNum, optInt, parseQualityFactorListField, vApply, prefixErrs]

theorem construction_validation_witness :
    ("scan_position_start" = "scan_position_start" ∨
     "scan_position_start" = "first_image_no" ∨
     "scan_position_start" = "num_images" ∨
     "scan_position_start" = "ordinal") ∧
    lookupKey [("ordinal", Json.num 1)] "scan_position_start" = none ∧
    (∃ errs, Scan.parse (.obj [("ordinal", Json.num 1)]) = .error errs ∧
      missingErr "scan_position_start" ∈ errs) :=
  ⟨Or.inl rfl, by simp [lookupKey],
    construction_validation_collects_all_violations.2.1
      [("ordinal", Json.num 1)] "scan_position_start" (Or.inl rfl)
      (by simp [lookupKey])⟩

/-- Tag field that must equal the given literal, returning the stored tag
string (the `target_type: Literal[...]` field of the Ref classes). -/
def reqTagged (o : Option Json) (name value : String) :
    Except (List VErr) String :=
  match o with
  | some (.str s) => if s = value then .ok s else .error [typeErr name]
  | some _ => .error [typeErr name]
  | none => .error [missingErr name]

/-- `class CollectionSweepRef(BaseModel)` of crystallography.py: its only
declared field is `target_type: Literal["CollectionSweep"]`. the pydantic
default of ignoring extra keys discards any other key of the payload, so an
identifier supplied alongside the tag is not stored. -/
structure CollectionSweepRef where
  target_type : String
deriving DecidableEq

def CollectionSweepRef.parse (j : Json) : Except (List VErr) CollectionSweepRef :=
  match j with
  | .obj fs =>
    Except.map CollectionSweepRef.mk
      (reqTagged (lookupKey fs "target_type") "target_type" "CollectionSweep")
  | _ => .error [typeErr "CollectionSweepRef"]

/-- `class ReflectionSetRef(BaseModel)`: only `target_type`. -/
structure ReflectionSetRef where
  target_type : String
deriving DecidableEq

def ReflectionSetRef.parse (j : Json) : Except (List VErr) ReflectionSetRef :=
  match j with
  | .obj fs =>
    Except.map ReflectionSetRef.mk
      (reqTagged (lookupKey fs "target_type") "target_type" "ReflectionSet")
  | _ => .error [typeErr "ReflectionSetRef"]

/-- `class MXExperimentRef(BaseModel)`: only `target_type`. -/
structure MXExperimentRef where
  target_type : String
deriving DecidableEq

def MXExperimentRef.parse (j : Json) : Except (List VErr) MXExperimentRef :=
  match j with
  | .obj fs =>
    Except.map MXExperimentRef.mk
      (reqTagged (lookupKey fs "target_type") "target_type" "MXExperiment")
  | _ => .error [typeErr "MXExperimentRef"]

/-- `class MXProcessingRef(BaseModel)`: only `target_type`. -/
structure MXProcessingRef where
  target_type : String
deriving DecidableEq

def MXProcessingRef.parse (j : Json) : Except (List VErr) MXProcessingRef :=
  match j with
  | .obj fs =>
    Except.map MXProcessingRef.mk
      (reqTagged (lookupKey fs "target_type") "target_type" "MXProcessing")
  | _ => .error [typeErr "MXProcessingRef"]

/-- `class MXSampleRef(BaseModel)`: only `target_type`. -/
structure MXSampleRef where
  target_type : String
deriving DecidableEq

def MXSampleRef.parse (j : Json) : Except (List VErr) MXSampleRef :=
  match j with
  | .obj fs =>
    Except.map MXSampleRef.mk
      (reqTagged (lookupKey fs "target_type") "target_type" "MXSample")
  | _ => .error [typeErr "MXSampleRef"]

/-- C3 (code bug): the reference record classes declare no identifier
field, only the `target_type` tag. Validating the documented payload
together with a uuid succeeds (pydantic ignores extra keys by default) and
the tag is retained, but the identifier is discarded: the result is the
same record for any identifier, so no reference can retain the entity it
points to. Each of the five Ref classes accepts its own tag and rejects a
wrong tag. -/
theorem reference_records_discard_identifier :
    CollectionSweepRef.parse (.obj [("target_type", .str "CollectionSweep"),
      ("uuid", .str "abc")]) = .ok ⟨"CollectionSweep"⟩ ∧
    (∀ u1 u2 : String,
      CollectionSweepRef.parse
        (.obj [("target_type", .str "CollectionSweep"), ("uuid", .str u1)]) =
      CollectionSweepRef.parse
        (.obj [("target_type", .str "CollectionSweep"), ("uuid", .str u2)])) ∧
    ReflectionSetRef.parse (.obj [("target_type", .str "ReflectionSet"),
      ("uuid", .str "abc")]) = .ok ⟨"ReflectionSet"⟩ ∧
    MXExperimentRef.parse (.obj [("target_type", .str "MXExperiment"),
      ("uuid", .str "abc")]) = .ok ⟨"MXExperiment"⟩ ∧
    MXProcessingRef.parse (.obj [("target_type", .str "MXProcessing"),
      ("uuid", .str "abc")]) = .ok ⟨"MXProcessing"⟩ ∧
    MXSampleRef.parse (.obj [("target_type", .str "MXSample"),
      ("uuid", .str "abc")]) = .ok ⟨"MXSample"⟩ ∧
    CollectionSweepRef.parse (.obj [("target_type", .str "ReflectionSet")]) =
      .error [typeErr "target_type"] := by
  refine ⟨?_, fun u1 u2 => ?_, ?_, ?_, ?_, ?_, ?_⟩ <;>
    simp [CollectionSweepRef.parse, ReflectionSetRef.parse,
      MXExperimentRef.parse, MXProcessingRef.parse, MXSampleRef.parse,
      reqTagged, lookupKey, Except.map]

/-- Modelled from the spec: the union member `MxlimsReference` named by
crystallography.py (MXExperiment.templates / reference_data / results,
MXProcessing.input_data / templates / reference_data / results) is defined
nowhere in the repository, and the `MxlimsObjectRef` that crystallography.py
imports from core.py does not exist in core.py either. The spec describes
the reference stand-in as a record carrying an explicit `target_type` tag
and an identifier. -/
structure MxlimsReference where
  target_type : String
  uuid : String
deriving DecidableEq

/-- A member of `Union["CollectionSweep", MxlimsReference]`, the declared
item type of MXExperiment.results. -/
inductive SweepOrRef where
  | sweep (s : CollectionSweep)
  | ref (r : MxlimsReference)

/-- Discriminated-union item resolution for MXExperiment.results, as
declared in the source: `discriminator="mxlims_type"`. The discriminator
field is read first; the tag "CollectionSweep" dispatches to the embedded
concrete type; an unknown or missing tag fails with an unknown-variant /
missing-discriminator error. The `MxlimsReference` member is unreachable:
reference records carry only `target_type`, never a `mxlims_type`
discriminator (and the member class is undefined in the source), so no
payload can select it. -/
def parseSweepOrRef (j : Json) : Except (List VErr) SweepOrRef :=
  match j with
  | .obj fs =>
    match lookupKey fs "mxlims_type" with
    | some (.str "CollectionSweep") =>
      Except.map SweepOrRef.sweep (CollectionSweep.parse (.obj fs))
    | some _ => .error [⟨"mxlims_type", "unknown variant"⟩]
    | none => .error [missingErr "mxlims_type"]
  | _ => .error [typeErr "item"]

def parseSweepOrRefList : List Json → Except (List VErr) (List SweepOrRef)
  | [] => .ok []
  | x :: rest =>
    vApply (Except.map List.cons (parseSweepOrRef x)) (parseSweepOrRefList rest)

def parseSweepOrRefListField (o : Option Json) (name : String) :
    Except (List VErr) (List SweepOrRef) :=
  match o with
  | some (.arr xs) => prefixErrs name (parseSweepOrRefList xs)
  | some _ => .error [typeErr name]
  | none => .ok []

/-- C1 (code bug): union dispatch for MXExperiment.results reads the
declared discriminator `mxlims_type` first. A payload tagged
mxlims_type="CollectionSweep" yields the concrete CollectionSweep; an
unrecognized tag fails with an unknown-variant error; a missing tag fails
as missing. But the documented reference payload, which carries only
`target_type`, has no `mxlims_type` discriminator and therefore fails
instead of yielding a reference stand-in: the reference member of the
union is the undefined name `MxlimsReference` and its records declare no
such discriminator. -/
theorem union_dispatch_reads_discriminator_first :
    parseSweepOrRef (.obj [("target_type", .str "CollectionSweep"),
      ("uuid", .str "abc")]) = .error [missingErr "mxlims_type"] ∧
    parseSweepOrRef (.obj [("mxlims_type", .str "CollectionSweep"),
      ("scan_axis", .str "Omega")]) =
      .ok (.sweep ⟨freshUuid, [], [], none, none, none, none, none, none,
        none, none, none, none, none, none, none, none, none, [], [],
        "Omega", none, none, none, [], none, none, none, none⟩) ∧
    parseSweepOrRef (.obj [("mxlims_type", .str "NoSuchType"),
      ("scan_axis", .str "Omega")]) =
      .error [⟨"mxlims_type", "unknown variant"⟩] ∧
    parseSweepOrRef (.obj [("scan_axis", .str "Omega")]) =
      .error [missingErr "mxlims_type"] := by
  refine ⟨?_, ?_, ?_, ?_⟩ <;>
    simp [parseSweepOrRef, CollectionSweep.parse, lookupKey, uuidStr,
      dictAny, dictBaseModel, dictBaseModelGo, parseOptJob,
      parseOptLogisticalSample, optStr, optNum, optInt, optPairNum, dictNum,
      dictNumGo, reqStr, reqLiteral, vSeq, parseScanListField, vApply,
      prefixErrs, Except.map, boundsOk]

/-- `class PdbxSignalType(str, enum.Enum)` of crystallography.py. -/
inductive PdbxSignalType where
  | I_over_sigma : PdbxSignalType
  | wCC_half : PdbxSignalType
deriving DecidableEq

def PdbxSignalType.fromValue (s : String) : Option PdbxSignalType :=
  if s = "local <I/sigmaI>" then some .I_over_sigma
  else if s = "local wCC_half" then some .wCC_half
  else none

/-- `class ReflectionBinningMode(str, enum.Enum)` of crystallography.py. -/
inductive ReflectionBinningMode where
  | equal_volume : ReflectionBinningMode
  | equal_number : ReflectionBinningMode
  | dstar_equidistant : ReflectionBinningMode
  | dstar2_equidistant : ReflectionBinningMode
deriving DecidableEq

def ReflectionBinningMode.fromValue (s : String) : Option ReflectionBinningMode :=
  if s = "equal_volume" then some .equal_volume
  else if s = "equal_number" then some .equal_number
  else if s = "dstar_equidistant" then some .dstar_equidistant
  else if s = "dstar2_equidistant" then some .dstar2_equidistant
  else none

/-- `class UnitCell(BaseModel)`: six required axis lengths and angles. -/
structure UnitCell where
  a : ℚ
  b : ℚ
  c : ℚ
  alpha : ℚ
  beta : ℚ
  gamma : ℚ
deriving DecidableEq

def UnitCell.parse (j : Json) : Except (List VErr) UnitCell :=
  match j with
  | .obj fs =>
    vApply (vApply (vApply (vApply (vApply (vApply (.ok UnitCell.mk)
      (reqNum (lookupKey fs "a") "a" none none))
      (reqNum (lookupKey fs "b") "b" none none))
      (reqNum (lookupKey fs "c") "c" none none))
      (reqNum (lookupKey fs "alpha") "alpha" none none))
      (reqNum (lookupKey fs "beta") "beta" none none))
      (reqNum (lookupKey fs "gamma") "gamma" none none)
  | _ => .error [typeErr "UnitCell"]

/-- Required triple-of-floats (`Tuple[float, float, float]`). -/
def reqTripleNum (o : Option Json) (name : String) :
    Except (List VErr) (ℚ × ℚ × ℚ) :=
  match o with
  | some (.arr [.num a, .num b, .num c]) => .ok (a, b, c)
  | some _ => .error [typeErr name]
  | none => .error [missingErr name]

/-- Float-triple list items (`List[Tuple[float, float, float]]`). -/
def tripleNumGo : List Json → Option (List (ℚ × ℚ × ℚ))
  | [] => some []
  | (.arr [.num a, .num b, .num c]) :: rest =>
    (tripleNumGo rest).map fun l => (a, b, c) :: l
  | _ :: _ => none

/-- Required list-of-float-triples field. -/
def reqListTripleNum (o : Option Json) (name : String) :
    Except (List VErr) (List (ℚ × ℚ × ℚ)) :=
  match o with
  | some (.arr xs) =>
      match tripleNumGo xs with
      | some l => .ok l
      | none => .error [typeErr name]
  | some _ => .error [typeErr name]
  | none => .error [missingErr name]

/-- Float-pair list items (`List[Tuple[float, float]]`). -/
def pairNumGo : List Json → Option (List (ℚ × ℚ))
  | [] => some []
  | (.arr [.num a, .num b]) :: rest => (pairNumGo rest).map fun l => (a, b) :: l
  | _ :: _ => none

/-- List-of-float-pairs field with default []. -/
def listPairNum (o : Option Json) (name : String) :
    Except (List VErr) (List (ℚ × ℚ)) :=
  match o with
  | some (.arr xs) =>
      match pairNumGo xs with
      | some l => .ok l
      | none => .error [typeErr name]
  | some _ => .error [typeErr name]
  | none => .ok []

/-- `class Tensor(BaseModel)`: eigenvalues and eigenvectors are both
required (no default in the source). -/
structure Tensor where
  eigenvalues : ℚ × ℚ × ℚ
  eigenvectors : List (ℚ × ℚ × ℚ)
deriving DecidableEq

def Tensor.parse (j : Json) : Except (List VErr) Tensor :=
  match j with
  | .obj fs =>
    vApply (vApply (.ok Tensor.mk)
      (reqTripleNum (lookupKey fs "eigenvalues") "eigenvalues"))
      (reqListTripleNum (lookupKey fs "eigenvectors") "eigenvectors")
  | _ => .error [typeErr "Tensor"]

/-- `class Macromolecule(BaseModel)`: acronym required, name optional,
identifiers a str-to-str dict defaulting to {}. -/
structure Macromolecule where
  acronym : String
  name : Option String
  identifiers : List (String × String)
deriving DecidableEq

def Macromolecule.parse (j : Json) : Except (List VErr) Macromolecule :=
  match j with
  | .obj fs =>
    vApply (vApply (vApply (.ok Macromolecule.mk)
      (reqStr (lookupKey fs "acronym") "acronym"))
      (optStr (lookupKey fs "name") "name"))
      (dictStr (lookupKey fs "identifiers") "identifiers")
  | _ => .error [typeErr "Macromolecule"]

/-- `class Component(BaseModel)`: same shape as Macromolecule. -/
structure Component where
  acronym : String
  name : Option String
  identifiers : List (String × String)
deriving DecidableEq

def Component.parse (j : Json) : Except (List VErr) Component :=
  match j with
  | .obj fs =>
    vApply (vApply (vApply (.ok Component.mk)
      (reqStr (lookupKey fs "acronym") "acronym"))
      (optStr (lookupKey fs "name") "name"))
      (dictStr (lookupKey fs "identifiers") "identifiers")
  | _ => .error [typeErr "Component"]

/-- Optional embedded sub-model field with default None. -/
def optSub (o : Option Json) (name : String)
    (p : Json → Except (List VErr) α) : Except (List VErr) (Option α) :=
  match o with
  | some .null => .ok none
  | some v => prefixErrs name (Except.map some (p v))
  | none => .ok none

/-- Field annotated with a non-optional type but declared with
`default=None`: pydantic does not validate the default, so the field is
simply not required and holds None when absent; an explicit value is
validated against the annotation (and an explicit null is rejected, since
the annotation is not Optional). -/
def subDefaultNone (o : Option Json) (name : String)
    (p : Json → Except (List VErr) α) : Except (List VErr) (Option α) :=
  match o with
  | some v => prefixErrs name (Except.map some (p v))
  | none => .ok none

/-- String field annotated `str` but declared with `default=None`
(MXExperiment.experiment_strategy). -/
def strDefaultNone (o : Option Json) (name : String) :
    Except (List VErr) (Option String) :=
  match o with
  | some (.str s) => .ok (some s)
  | some _ => .error [typeErr name]
  | none => .ok none

/-- Generic list parser for a fixed item parser. -/
def parseListWith (p : Json → Except (List VErr) α) :
    List Json → Except (List VErr) (List α)
  | [] => .ok []
  | x :: rest => vApply (Except.map List.cons (p x)) (parseListWith p rest)

/-- Generic list field with default [] for a fixed item parser. -/
def listFieldWith (p : Json → Except (List VErr) α) (o : Option Json)
    (name : String) : Except (List VErr) (List α) :=
  match o with
  | some (.arr xs) => prefixErrs name (parseListWith p xs)
  | some _ => .error [typeErr name]
  | none => .ok []

/-- `class ReflectionSet(Dataset)` of crystallography.py: the seven
inherited Dataset fields, the required discriminator literal, and the
reflection-set fields in declaration order; h/k/l index ranges,
num_reflections and num_unique_reflections are required; number_bins,
refln_per_bin and refln_per_bin_per_sweep declare gt=0. -/
structure ReflectionSet where
  uuid : String
  extensions : List (String × Json)
  namespace_extensions : List (String × Json)
  source : Option Job
  role : Option String
  logistical_sample : Option LogisticalSample
  derived_from_id : Option String
  anisotropic_diffraction : Bool
  resolution_rings_detected : List (ℚ × ℚ)
  resolution_rings_excluded : List (ℚ × ℚ)
  unit_cell : Option UnitCell
  space_group_name : Option String
  operational_resolution : Option ℚ
  B_iso_Wilson_estimate : Option ℚ
  h_index_range : ℤ × ℤ
  k_index_range : ℤ × ℤ
  l_index_range : ℤ × ℤ
  num_reflections : ℤ
  num_unique_reflections : ℤ
  aniso_B_tensor : Option Tensor
  diffraction_limits_estimated : Option Tensor
  overall_refln_statistics : Option ReflectionStatistics
  refln_shells : List ReflectionStatistics
  observed_criterion_sigma_F : Option ℚ
  observed_criterion_sigma_I : Option ℚ
  signal_type : Option PdbxSignalType
  signal_cutoff : Option ℚ
  resolution_cutoffs : List QualityFactor
  binning_mode : Option ReflectionBinningMode
  number_bins : Option ℤ
  refln_per_bin : Option ℤ
  refln_per_bin_per_sweep : Option ℤ
  file_type : Option String
  filename : Option String
  path : Option String

def ReflectionSet.parse (j : Json) : Except (List VErr) ReflectionSet :=
  match j with
  | .obj fs =>
    let f0 := vApply (.ok ReflectionSet.mk) (uuidStr (lookupKey fs "uuid") "uuid")
    let f1 := vApply f0 (dictAny (lookupKey fs "extensions") "extensions")
    let f2 := vApply f1
      (dictBaseModel (lookupKey fs "namespace_extensions") "namespace_extensions")
    let f3 := vApply f2
      (prefixErrs "source" (parseOptJob (lookupKey fs "source")))
    let f4 := vApply f3 (optStr (lookupKey fs "role") "role")
    let f5 := vApply f4 (prefixErrs "logistical_sample"
      (parseOptLogisticalSample (lookupKey fs "logistical_sample")))
    let f6 := vApply f5 (optStr (lookupKey fs "derived_from_id") "derived_from_id")
    let f7 := vSeq f6
      (reqLiteral (lookupKey fs "mxlims_type") "mxlims_type" "ReflectionSet")
    let f8 := vApply f7
      (optBool (lookupKey fs "anisotropic_diffraction") "anisotropic_diffraction"
        false)
    let f9 := vApply f8 (listPairNum (lookupKey fs "resolution_rings_detected")
      "resolution_rings_detected")
    let f10 := vApply f9 (listPairNum (lookupKey fs "resolution_rings_excluded")
      "resolution_rings_excluded")
    let f11 := vApply f10
      (optSub (lookupKey fs "unit_cell") "unit_cell" UnitCell.parse)
    let f12 := vApply f11 (optStr (lookupKey fs "space_group_name")
      "space_group_name")
    let f13 := vApply f12 (optNum (lookupKey fs "operational_resolution")
      "operational_resolution" none none)
    let f14 := vApply f13 (optNum (lookupKey fs "B_iso_Wilson_estimate")
      "B_iso_Wilson_estimate" none none)
    let f15 := vApply f14 (reqPairInt (lookupKey fs "h_index_range")
      "h_index_range")
    let f16 := vApply f15 (reqPairInt (lookupKey fs "k_index_range")
      "k_index_range")
    let f17 := vApply f16 (reqPairInt (lookupKey fs "l_index_range")
      "l_index_range")
    let f18 := vApply f17 (reqInt (lookupKey fs "num_reflections")
      "num_reflections")
    let f19 := vApply f18 (reqInt (lookupKey fs "num_unique_reflections")
      "num_unique_reflections")
    let f20 := vApply f19
      (optSub (lookupKey fs "aniso_B_tensor") "aniso_B_tensor" Tensor.parse)
    let f21 := vApply f20 (optSub (lookupKey fs "diffraction_limits_estimated")
      "diffraction_limits_estimated" Tensor.parse)
    let f22 := vApply f21 (optSub (lookupKey fs "overall_refln_statistics")
      "overall_refln_statistics" ReflectionStatistics.parse)
    let f23 := vApply f22 (listFieldWith ReflectionStatistics.parse
      (lookupKey fs "refln_shells") "refln_shells")
    let f24 := vApply f23 (optNum (lookupKey fs "observed_criterion_sigma_F")
      "observed_criterion_sigma_F" none none)
    let f25 := vApply f24 (optNum (lookupKey fs "observed_criterion_sigma_I")
      "observed_criterion_sigma_I" none none)
    let f26 := vApply f25 (optEnum (lookupKey fs "signal_type") "signal_type"
      PdbxSignalType.fromValue)
    let f27 := vApply f26
      (optNum (lookupKey fs "signal_cutoff") "signal_cutoff" none none)
    let f28 := vApply f27 (parseQualityFactorListField
      (lookupKey fs "resolution_cutoffs") "resolution_cutoffs")
    let f29 := vApply f28 (optEnum (lookupKey fs "binning_mode") "binning_mode"
      ReflectionBinningMode.fromValue)
    let f30 := vApply f29
      (optInt (lookupKey fs "number_bins") "number_bins" true)
    let f31 := vApply f30
      (optInt (lookupKey fs "refln_per_bin") "refln_per_bin" true)
    let f32 := vApply f31 (optInt (lookupKey fs "refln_per_bin_per_sweep")
      "refln_per_bin_per_sweep" true)
    let f33 := vApply f32 (optStr (lookupKey fs "file_type") "file_type")
    let f34 := vApply f33 (optStr (lookupKey fs "filename") "filename")
    vApply f34 (optStr (lookupKey fs "path") "path")
  | _ => .error [typeErr "ReflectionSet"]

/-- A member of `Union["ReflectionSet", MxlimsReference]`, the declared
item type of MXProcessing.results and MXExperiment.reference_data. -/
inductive ReflSetOrRef where
  | reflectionSet (r : ReflectionSet)
  | ref (r : MxlimsReference)

/-- Discriminated-union item resolution on `mxlims_type` for
ReflectionSet-or-reference fields, mirroring parseSweepOrRef. -/
def parseReflSetOrRef (j : Json) : Except (List VErr) ReflSetOrRef :=
  match j with
  | .obj fs =>
    match lookupKey fs "mxlims_type" with
    | some (.str "ReflectionSet") =>
      Except.map ReflSetOrRef.reflectionSet (ReflectionSet.parse (.obj fs))
    | some _ => .error [⟨"mxlims_type", "unknown variant"⟩]
    | none => .error [missingErr "mxlims_type"]
  | _ => .error [typeErr "item"]

def parseReflSetOrRefList : List Json → Except (List VErr) (List ReflSetOrRef)
  | [] => .ok []
  | x :: rest =>
    vApply (Except.map List.cons (parseReflSetOrRef x)) (parseReflSetOrRefList rest)

def parseReflSetOrRefListField (o : Option Json) (name : String) :
    Except (List VErr) (List ReflSetOrRef) :=
  match o with
  | some (.arr xs) => prefixErrs name (parseReflSetOrRefList xs)
  | some _ => .error [typeErr name]
  | none => .ok []

/- The three MX job/sample classes are mutually recursive:
MXExperiment.sample and MXProcessing.sample are Optional["MXSample"], and
MXSample.jobs is List[Union[MXExperiment, MXProcessing]]. As with the core
classes, pydantic field order is parent fields first (overridden fields
keep the parent position), then the own fields of the class; the required
discriminator literal is enforced on validation rather than stored.
MXExperiment.experiment_strategy is annotated `str` and
MXSample.macromolecule is annotated `Macromolecule`, but both declare
`default=None`, so both are Option-valued here. -/
mutual
inductive MXExperiment where
  | mk (uuid : String) (extensions : List (String × Json))
      (namespace_extensions : List (String × Json))
      (sample : Option MXSample) (logistical_sample : Option LogisticalSample)
      (templates : List SweepOrRef) (input_data : List Dataset)
      (reference_data : List ReflSetOrRef) (results : List SweepOrRef)
      (start_time : Option String) (end_time : Option String)
      (job_status : Option JobStatus)
      (experiment_strategy : Option String)
      (expected_resolution : Option ℚ) (target_completeness : Option ℚ)
      (target_multiplicity : Option ℚ) (dose_budget : Option ℚ)
      (snapshot_count : Option ℤ) (wedge_width : Option ℚ)
      (measured_flux : Option ℚ) (radiation_dose : Option ℚ)
      (unit_cell : Option UnitCell) (space_group_name : Option String) :
      MXExperiment
inductive MXProcessing where
  | mk (uuid : String) (extensions : List (String × Json))
      (namespace_extensions : List (String × Json))
      (sample : Option MXSample) (logistical_sample : Option LogisticalSample)
      (templates : List ReflSetOrRef) (input_data : List SweepOrRef)
      (reference_data : List ReflSetOrRef) (results : List ReflSetOrRef)
      (start_time : Option String) (end_time : Option String)
      (job_status : Option JobStatus)
      (unit_cell : Option UnitCell) (space_group_name : Option String) :
      MXProcessing
inductive MXSample where
  | mk (uuid : String) (extensions : List (String × Json))
      (namespace_extensions : List (String × Json))
      (logistical_samples : List LogisticalSample)
      (jobs : List MXJobUnion)
      (macromolecule : Option Macromolecule)
      (components : List Component) (unit_cell : Option UnitCell)
      (space_group_name : Option String) (radiation_sensitivity : Option ℚ)
      (identifiers : List (String × String)) : MXSample
inductive MXJobUnion where
  | experiment (e : MXExperiment)
  | processing (p : MXProcessing)
end

mutual
def MXExperiment.parseFields (fs : List (String × Json)) :
    Except (List VErr) MXExperiment :=
  let f0 := vApply (.ok MXExperiment.mk) (uuidStr (lookupKey fs "uuid") "uuid")
  let f1 := vApply f0 (dictAny (lookupKey fs "extensions") "extensions")
  let f2 := vApply f1
    (dictBaseModel (lookupKey fs "namespace_extensions") "namespace_extensions")
  let f3 := vApply f2
    (match h : lookupKey fs "sample" with
     | some .null => .ok none
     | some (.obj gs) =>
       prefixErrs "sample" (Except.map some (MXSample.parseFields gs))
     | some _ => .error [typeErr "sample"]
     | none => .ok none)
  let f4 := vApply f3 (prefixErrs "logistical_sample"
    (parseOptLogisticalSample (lookupKey fs "logistical_sample")))
  let f5 := vApply f4 (parseSweepOrRefListField (lookupKey fs "templates")
    "templates")
  let f6 := vApply f5 (parseDatasetListField (lookupKey fs "input_data")
    "input_data")
  let f7 := vApply f6 (parseReflSetOrRefListField
    (lookupKey fs "reference_data") "reference_data")
  let f8 := vApply f7 (parseSweepOrRefListField (lookupKey fs "results")
    "results")
  let f9 := vApply f8 (optDatetime (lookupKey fs "start_time") "start_time")
  let f10 := vApply f9 (optDatetime (lookupKey fs "end_time") "end_time")
  let f11 := vApply f10
    (optEnum (lookupKey fs "job_status") "job_status" JobStatus.fromValue)
  let f12 := vSeq f11
    (reqLiteral (lookupKey fs "mxlims_type") "mxlims_type" "MXExperiment")
  let f13 := vApply f12 (strDefaultNone (lookupKey fs "experiment_strategy")
    "experiment_strategy")
  let f14 := vApply f13 (optNum (lookupKey fs "expected_resolution")
    "expected_resolution" none none)
  let f15 := vApply f14 (optNum (lookupKey fs "target_completeness")
    "target_completeness" none none)
  let f16 := vApply f15 (optNum (lookupKey fs "target_multiplicity")
    "target_multiplicity" none none)
  let f17 := vApply f16 (optNum (lookupKey fs "dose_budget") "dose_budget"
    none none)
  let f18 := vApply f17 (optInt (lookupKey fs "snapshot_count")
    "snapshot_count" false)
  let f19 := vApply f18 (optNum (lookupKey fs "wedge_width") "wedge_width"
    none none)
  let f20 := vApply f19 (optNum (lookupKey fs "measured_flux") "measured_flux"
    none none)
  let f21 := vApply f20 (optNum (lookupKey fs "radiation_dose")
    "radiation_dose" none none)
  let f22 := vApply f21
    (optSub (lookupKey fs "unit_cell") "unit_cell" UnitCell.parse)
  vApply f22 (optStr (lookupKey fs "space_group_name") "space_group_name")
termination_by sizeOf fs
decreasing_by
all_goals simp_wf
all_goals (have hh := sizeOf_lookupKey (by assumption); simp at hh; omega)
def MXProcessing.parseFields (fs : List (String × Json)) :
    Except (List VErr) MXProcessing :=
  let f0 := vApply (.ok MXProcessing.mk) (uuidStr (lookupKey fs "uuid") "uuid")
  let f1 := vApply f0 (dictAny (lookupKey fs "extensions") "extensions")
  let f2 := vApply f1
    (dictBaseModel (lookupKey fs "namespace_extensions") "namespace_extensions")
  let f3 := vApply f2
    (match h : lookupKey fs "sample" with
     | some .null => .ok none
     | some (.obj gs) =>
       prefixErrs "sample" (Except.map some (MXSample.parseFields gs))
     | some _ => .error [typeErr "sample"]
     | none => .ok none)
  let f4 := vApply f3 (prefixErrs "logistical_sample"
    (parseOptLogisticalSample (lookupKey fs "logistical_sample")))
  let f5 := vApply f4 (parseReflSetOrRefListField (lookupKey fs "templates")
    "templates")
  let f6 := vApply f5 (parseSweepOrRefListField (lookupKey fs "input_data")
    "input_data")
  let f7 := vApply f6 (parseReflSetOrRefListField
    (lookupKey fs "reference_data") "reference_data")
  let f8 := vApply f7 (parseReflSetOrRefListField (lookupKey fs "results")
    "results")
  let f9 := vApply f8 (optDatetime (lookupKey fs "start_time") "start_time")
  let f10 := vApply f9 (optDatetime (lookupKey fs "end_time") "end_time")
  let f11 := vApply f10
    (optEnum (lookupKey fs "job_status") "job_status" JobStatus.fromValue)
  let f12 := vSeq f11
    (reqLiteral (lookupKey fs "mxlims_type") "mxlims_type" "MXProcessing")
  let f13 := vApply f12
    (optSub (lookupKey fs "unit_cell") "unit_cell" UnitCell.parse)
  vApply f13 (optStr (lookupKey fs "space_group_name") "space_group_name")
termination_by sizeOf fs
decreasing_by
all_goals simp_wf
all_goals (have hh := sizeOf_lookupKey (by assumption); simp at hh; omega)
def MXSample.parseFields (fs : List (String × Json)) :
    Except (List VErr) MXSample :=
  let f0 := vApply (.ok MXSample.mk) (uuidStr (lookupKey fs "uuid") "uuid")
  let f1 := vApply f0 (dictAny (lookupKey fs "extensions") "extensions")
  let f2 := vApply f1
    (dictBaseModel (lookupKey fs "namespace_extensions") "namespace_extensions")
  let f3 := vApply f2 (parseLogisticalSampleListField
    (lookupKey fs "logistical_samples") "logistical_samples")
  let f4 := vApply f3
    (match h : lookupKey fs "jobs" with
     | some (.arr xs) => prefixErrs "jobs" (parseMXJobUnionList xs)
     | some _ => .error [typeErr "jobs"]
     | none => .ok [])
  let f5 := vSeq f4
    (reqLiteral (lookupKey fs "mxlims_type") "mxlims_type" "MXSample")
  let f6 := vApply f5 (subDefaultNone (lookupKey fs "macromolecule")
    "macromolecule" Macromolecule.parse)
  let f7 := vApply f6
    (listFieldWith Component.parse (lookupKey fs "components") "components")
  let f8 := vApply f7
    (optSub (lookupKey fs "unit_cell") "unit_cell" UnitCell.parse)
  let f9 := vApply f8 (optStr (lookupKey fs "space_group_name")
    "space_group_name")
  let f10 := vApply f9 (optNum (lookupKey fs "radiation_sensitivity")
    "radiation_sensitivity" (some 0) (some 1))
  vApply f10 (dictStr (lookupKey fs "identifiers") "identifiers")
termination_by sizeOf fs
decreasing_by
all_goals simp_wf
all_goals (have hh := sizeOf_lookupKey (by assumption); simp at hh; omega)
def parseMXJobUnion (j : Json) : Except (List VErr) MXJobUnion :=
  match j with
  | .obj fs =>
    match lookupKey fs "mxlims_type" with
    | some (.str "MXExperiment") =>
      Except.map MXJobUnion.experiment (MXExperiment.parseFields fs)
    | some (.str "MXProcessing") =>
      Except.map MXJobUnion.processing (MXProcessing.parseFields fs)
    | some _ => .error [⟨"mxlims_type", "no union member matched"⟩]
    | none => .error [⟨"mxlims_type", "no union member matched"⟩]
  | _ => .error [typeErr "job"]
termination_by sizeOf j
def parseMXJobUnionList : List Json → Except (List VErr) (List MXJobUnion)
  | [] => .ok []
  | x :: rest =>
    vApply (Except.map List.cons (parseMXJobUnion x)) (parseMXJobUnionList rest)
termination_by xs => sizeOf xs
end

def MXExperiment.parse (j : Json) : Except (List VErr) MXExperiment :=
  match j with
  | .obj fs => MXExperiment.parseFields fs
  | _ => .error [typeErr "MXExperiment"]

def MXProcessing.parse (j : Json) : Except (List VErr) MXProcessing :=
  match j with
  | .obj fs => MXProcessing.parseFields fs
  | _ => .error [typeErr "MXProcessing"]

def MXSample.parse (j : Json) : Except (List VErr) MXSample :=
  match j with
  | .obj fs => MXSample.parseFields fs
  | _ => .error [typeErr "MXSample"]

def MXSample.macromolecule : MXSample → Option Macromolecule
  | .mk _ _ _ _ _ m _ _ _ _ _ => m

def MXExperiment.experiment_strategy : MXExperiment → Option String
  | .mk _ _ _ _ _ _ _ _ _ _ _ _ es _ _ _ _ _ _ _ _ _ _ => es

/-- C10: fields annotated with a non-optional type but declared with
`default=None` are not mandatory, because pydantic does not validate
defaults. Constructing MXSample with only its discriminator tag succeeds
and yields macromolecule = None despite the non-optional `Macromolecule`
annotation, and constructing MXExperiment with only its tag succeeds and
yields experiment_strategy = None despite the non-optional `str`
annotation. -/
theorem default_none_fields_not_mandatory :
    MXSample.parse (.obj [("mxlims_type", .str "MXSample")]) =
      .ok (.mk freshUuid [] [] [] [] none [] none none none []) ∧
    MXSample.macromolecule (.mk freshUuid [] [] [] [] none [] none none none []) =
      none ∧
    MXExperiment.parse (.obj [("mxlims_type", .str "MXExperiment")]) =
      .ok (.mk freshUuid [] [] none none [] [] [] [] none none none none
        none none none none none none none none none none) ∧
    MXExperiment.experiment_strategy (.mk freshUuid [] [] none none [] [] [] []
      none none none none none none none none none none none none none none) =
      none := by
  refine ⟨?_, rfl, ?_, rfl⟩ <;>
    simp [MXSample.parse, MXSample.parseFields, MXExperiment.parse,
      MXExperiment.parseFields, lookupKey, uuidStr, dictAny, dictBaseModel,
      parseLogisticalSampleListField, parseDatasetListField,
      parseSweepOrRefListField, parseReflSetOrRefListField,
      parseOptLogisticalSample, reqLiteral, vSeq, subDefaultNone,
      strDefaultNone, listFieldWith, optSub, optStr, optNum, optInt, dictStr,
      optDatetime, optEnum, vApply, prefixErrs, Except.map]

/- Schema export: the `if __name__ == "__main__"` block of
crystallography.py iterates over a fixed six-type tuple, calls
`cls.model_json_schema()` for each, and writes `<TypeName>_schema.json`.
Running it first imports the module, whose import statement
`from mxlims.pydantic.core import (Job, Dataset, PreparedSample,
LogisticalSample, MxlimsObjectRef)` must resolve against the names that
core.py actually defines. -/

/-- The class names defined in core.py. -/
def coreDefinedNames : List String :=
  ["JobStatus", "MxlimsObject", "Dataset", "Job", "LogisticalSample",
   "PreparedSample"]

/-- The names crystallography.py imports from mxlims.pydantic.core. -/
def crystallographyCoreImports : List String :=
  ["Job", "Dataset", "PreparedSample", "LogisticalSample", "MxlimsObjectRef"]

/-- The fixed export list of the `__main__` block, in order. -/
def exportTypeNames : List String :=
  ["LogisticalSample", "CollectionSweep", "ReflectionSet", "MXExperiment",
   "MXProcessing", "MXSample"]

/-- Declared fields of each exported class (inherited fields first, then
own fields in declaration order), paired with whether the declaration
carries description text (the bare `mxlims_type` literals carry none). -/
def schemaFields : String → List (String × Bool)
  | "LogisticalSample" =>
    [("uuid", true), ("extensions", true), ("namespace_extensions", true),
     ("sample", true), ("container", true), ("contents", true),
     ("jobs", true), ("datasets", true)]
  | "CollectionSweep" =>
    [("uuid", true), ("extensions", true), ("namespace_extensions", true),
     ("source", true), ("role", true), ("logistical_sample", true),
     ("derived_from_id", true), ("mxlims_type", false), ("annotation", true),
     ("exposure_time", true), ("image_width", true), ("energy", true),
     ("transmission", true), ("detector_type", true),
     ("detector_binning_mode", true), ("detector_roi_mode", true),
     ("beam_position", true), ("beam_size", true), ("beam_shape", true),
     ("axis_positions_start", true), ("axis_positions_end", true),
     ("scan_axis", true), ("overlap", true), ("num_triggers", true),
     ("num_images_per_trigger", true), ("scans", true), ("file_type", true),
     ("prefix", true), ("filename_template", true), ("path", true)]
  | "ReflectionSet" =>
    [("uuid", true), ("extensions", true), ("namespace_extensions", true),
     ("source", true), ("role", true), ("logistical_sample", true),
     ("derived_from_id", true), ("mxlims_type", false),
     ("anisotropic_diffraction", true), ("resolution_rings_detected", true),
     ("resolution_rings_excluded", true), ("unit_cell", true),
     ("space_group_name", true), ("operational_resolution", true),
     ("B_iso_Wilson_estimate", true), ("h_index_range", true),
     ("k_index_range", true), ("l_index_range", true),
     ("num_reflections", true), ("num_unique_reflections", true),
     ("aniso_B_tensor", true), ("diffraction_limits_estimated", true),
     ("overall_refln_statistics", true), ("refln_shells", true),
     ("observed_criterion_sigma_F", true), ("observed_criterion_sigma_I", true),
     ("signal_type", true), ("signal_cutoff", true),
     ("resolution_cutoffs", true), ("binning_mode", true),
     ("number_bins", true), ("refln_per_bin", true),
     ("refln_per_bin_per_sweep", true), ("file_type", true),
     ("filename", true), ("path", true)]
  | "MXExperiment" =>
    [("uuid", true), ("extensions", true), ("namespace_extensions", true),
     ("sample", true), ("logistical_sample", true), ("templates", true),
     ("input_data", true), ("reference_data", true), ("results", true),
     ("start_time", true), ("end_time", true), ("job_status", true),
     ("mxlims_type", false), ("experiment_strategy", true),
     ("expected_resolution", true), ("target_completeness", true),
     ("target_multiplicity", true), ("dose_budget", true),
     ("snapshot_count", true), ("wedge_width", true), ("measured_flux", true),
     ("radiation_dose", true), ("unit_cell", true), ("space_group_name", true)]
  | "MXProcessing" =>
    [("uuid", true), ("extensions", true), ("namespace_extensions", true),
     ("sample", true), ("logistical_sample", true), ("templates", true),
     ("input_data", true), ("reference_data", true), ("results", true),
     ("start_time", true), ("end_time", true), ("job_status", true),
     ("mxlims_type", false), ("unit_cell", true), ("space_group_name", true)]
  | "MXSample" =>
    [("uuid", true), ("extensions", true), ("namespace_extensions", true),
     ("logistical_samples", true), ("jobs", true), ("mxlims_type", false),
     ("macromolecule", true), ("components", true), ("unit_cell", true),
     ("space_group_name", true), ("radiation_sensitivity", true),
     ("identifiers", true)]
  | _ => []

/-- The export loop: introspect each type in order and emit
`<TypeName>_schema.json`; the first introspection failure aborts the run
with no accumulated partial results. -/
def exportLoop (introspect : String → Except String (List (String × Bool))) :
    List String → Except String (List (String × List (String × Bool)))
  | [] => .ok []
  | n :: rest =>
    match introspect n with
    | .error e => .error e
    | .ok doc =>
      Except.map (fun ds => (n ++ "_schema.json", doc) :: ds)
        (exportLoop introspect rest)

/-- Running `python -m mxlims.pydantic.crystallography`: the module import
must resolve first; only then does the six-type loop run. -/
def runSchemaExport :
    Except String (List (String × List (String × Bool))) :=
  if crystallographyCoreImports.all (fun n => coreDefinedNames.contains n) then
    exportLoop (fun n => .ok (schemaFields n)) exportTypeNames
  else
    .error "ImportError: cannot import name MxlimsObjectRef"

/-- C9 (code bug): the export run produces no schema documents at all:
crystallography.py imports `MxlimsObjectRef` from core.py, but core.py
defines no such name, so the module fails to load and the run aborts
before the first type, instead of writing the six documents. The loop
itself, had the import resolved, would emit exactly the six documents
named `<TypeName>_schema.json` with every declared field, and is
fail-fast: a first-type introspection failure aborts with no partial
results. -/
theorem schema_export_aborts_on_import :
    runSchemaExport = .error "ImportError: cannot import name MxlimsObjectRef" ∧
    Except.map (fun ds => ds.map Prod.fst)
      (exportLoop (fun n => .ok (schemaFields n)) exportTypeNames) =
      .ok ["LogisticalSample_schema.json", "CollectionSweep_schema.json",
        "ReflectionSet_schema.json", "MXExperiment_schema.json",
        "MXProcessing_schema.json", "MXSample_schema.json"] ∧
    exportLoop (fun _ => .error "introspection failed") exportTypeNames =
      .error "introspection failed" := by
  refine ⟨?_, ?_, ?_⟩ <;>
    simp [runSchemaExport, exportLoop, exportTypeNames, coreDefinedNames,
      crystallographyCoreImports, schemaFields, Except.map]

end Mxlims
